import Mathlib

/-!
Verification development for the WI Excise Shipper XML form generator
(`app/csv_mapper.py`, `app/xml_generator.py`).

The Python source is shallowly embedded: pure functions become Lean
functions on `String` / `List Char` / `Int` / `ℚ`; Python `dict`s become
association lists with dict semantics (assignment replaces in place,
otherwise appends, matching insertion-order dicts); fallible code
(`float(...)`, `int(...)`, `data[key]`) returns `Except`/`Option`.
Python `float` arithmetic is modelled by exact rationals; `str.upper`,
`str.lower`, `str.strip` and the regex classes `\d`, `\s` are modelled
over ASCII.  The external `dateutil` parser (an optional dependency,
imported dynamically inside `normalize_date`) is modelled as an oracle
parameter returning an optional datetime-like date.
-/

/-- ASCII whitespace, modelling Python `str.strip()` and the regex class
`\s` (space, tab, newline, carriage return, vertical tab, form feed). -/
def pyIsSpace (c : Char) : Bool :=
  c == ' ' || c == '\t' || c == '\n' || c == '\r' || c == (Char.ofNat 11) || c == (Char.ofNat 12)

/-- ASCII decimal digit, modelling the regex class `[0-9]` and
`str.isdigit` on ASCII data. -/
def isDigitChar (c : Char) : Bool :=
  '0' ≤ c && c ≤ '9'

/-- ASCII uppercase letter `[A-Z]`. -/
def isUpperAZ (c : Char) : Bool :=
  'A' ≤ c && c ≤ 'Z'

/-- ASCII lowercase letter `[a-z]`. -/
def isLowerAZ (c : Char) : Bool :=
  'a' ≤ c && c ≤ 'z'

/-- ASCII letter `[A-Za-z]`. -/
def isAsciiLetter (c : Char) : Bool :=
  isUpperAZ c || isLowerAZ c

/-- Python `str.upper` on a character (ASCII model). -/
def pyToUpper (c : Char) : Char :=
  if isLowerAZ c then Char.ofNat (c.toNat - 32) else c

/-- Python `str.lower` on a character (ASCII model). -/
def pyToLower (c : Char) : Char :=
  if isUpperAZ c then Char.ofNat (c.toNat + 32) else c

/-- Python `str.strip()` on a character list: drop whitespace from the
front, then from the back. -/
def stripChars (l : List Char) : List Char :=
  List.rdropWhile pyIsSpace (l.dropWhile pyIsSpace)

/-- Python `str.strip()`. -/
def pyStrip (s : String) : String :=
  String.mk (stripChars s.toList)

/-- Python `str.upper()` (ASCII model). -/
def pyUpper (s : String) : String :=
  String.mk (s.toList.map pyToUpper)

/-- Python `str.isdigit()` (ASCII model): nonempty and all digits. -/
def pyIsdigit (s : String) : Bool :=
  !s.toList.isEmpty && s.toList.all isDigitChar

/-- Python `str.zfill(w)`.  The sign-aware branch of `zfill` is omitted:
every call site below feeds it strings drawn from `[0-9A-Z]`, which never
carry a sign. -/
def zfill (w : Nat) (s : String) : String :=
  if s.length ≥ w then s
  else String.mk (List.replicate (w - s.length) '0' ++ s.toList)

/-- Character class `[0-9A-Z]` kept by `clean_zip_code`'s `re.sub`. -/
def isZipChar (c : Char) : Bool :=
  isDigitChar c || isUpperAZ c

/-- `CSVMapper.clean_zip_code`: uppercase, drop everything outside
`[0-9A-Z]`, then left-pad all-digit results with zeros to width 5. -/
def clean_zip_code (z : String) : String :=
  let zc := String.mk ((z.toList.map pyToUpper).filter isZipChar)
  if pyIsdigit zc then zfill 5 zc else zc

theorem clean_zip_code_chars (z : String) :
    ∀ c ∈ (clean_zip_code z).toList, isZipChar c = true := by
  intro c hc
  unfold clean_zip_code at hc
  by_cases h : pyIsdigit (String.mk ((z.toList.map pyToUpper).filter isZipChar)) = true
  · simp only [h, if_pos] at hc
    unfold zfill at hc
    split at hc
    · exact List.of_mem_filter hc
    · simp only [String.toList] at hc
      rcases List.mem_append.mp hc with h1 | h1
      · have : c = '0' := List.eq_of_mem_replicate h1
        subst this
        decide
      · exact List.of_mem_filter h1
  · simp only [h, if_neg, Bool.false_eq_true, not_false_iff] at hc
    exact List.of_mem_filter hc

theorem clean_zip_code_digit_len (z : String)
    (h : pyIsdigit (String.mk ((z.toList.map pyToUpper).filter isZipChar)) = true) :
    (clean_zip_code z).length ≥ 5 := by
  unfold clean_zip_code
  simp only [h, if_pos]
  unfold zfill
  split
  · omega
  · simp only [String.length, String.toList] at *
    rw [List.length_append, List.length_replicate]
    omega

/-- Character class kept by `clean_street_address`'s second `re.sub`:
ASCII letters, digits, hyphen, slash, whitespace. -/
def isAddrKeep (c : Char) : Bool :=
  isAsciiLetter c || isDigitChar c || c == '-' || c == '/' || pyIsSpace c

theorem dropWhile_head_not (p : Char → Bool) :
    ∀ (l : List Char) a t, List.dropWhile p l = a :: t → p a = false := by
  intro l
  induction l with
  | nil => intro a t h; simp [List.dropWhile] at h
  | cons b u ih =>
    intro a t h
    by_cases hb : p b = true
    · rw [List.dropWhile_cons_of_pos hb] at h
      exact ih a t h
    · rw [List.dropWhile_cons_of_neg hb] at h
      obtain ⟨rfl, rfl⟩ := List.cons.inj h
      exact Bool.eq_false_iff.mpr hb

theorem dropWhileSuffix (p : Char → Bool) (l : List Char) :
    l.dropWhile p <:+ l := by
  induction l with
  | nil => exact List.suffix_rfl
  | cons a t ih =>
    by_cases ha : p a = true
    · rw [List.dropWhile_cons_of_pos ha]
      exact ih.trans (List.suffix_cons a t)
    · rw [List.dropWhile_cons_of_neg ha]
/-- The `re.sub(r'\s+', ' ', ...)` pass of `clean_street_address`: each
maximal run of whitespace becomes a single space.  (Each run is collapsed
onto its last character, which is equivalent to the regex substitution
and keeps the recursion structural.) -/
def collapseWs : List Char → List Char
  | [] => []
  | [c] => if pyIsSpace c then [' '] else [c]
  | c :: d :: rest =>
    if pyIsSpace c && pyIsSpace d then collapseWs (d :: rest)
    else (if pyIsSpace c then ' ' else c) :: collapseWs (d :: rest)

/-- `CSVMapper.clean_street_address`: drop periods, drop characters
outside the allowed class (letters, digits, hyphen, slash, whitespace),
collapse whitespace runs to single spaces, strip.  (The
`if not address: return ''` guard agrees with the pipeline on the empty
string.) -/
def clean_street_address (address : String) : String :=
  let cs1 := address.toList.filter (fun c => !(c == '.'))
  let cs2 := cs1.filter isAddrKeep
  String.mk (stripChars (collapseWs cs2))

/-- Adjacent characters are not both whitespace. -/
def notBothWs (a b : Char) : Prop :=
  ¬(pyIsSpace a = true ∧ pyIsSpace b = true)

theorem collapseWs_head (d : Char) (rest : List Char) :
    ∃ t, collapseWs (d :: rest) = (if pyIsSpace d = true then ' ' else d) :: t := by
  induction rest generalizing d with
  | nil =>
    refine ⟨[], ?_⟩
    by_cases h : pyIsSpace d = true <;> simp [collapseWs, h]
  | cons r rest' ih =>
    by_cases hd : pyIsSpace d = true
    · by_cases hr : pyIsSpace r = true
      · obtain ⟨t, ht⟩ := ih r
        refine ⟨t, ?_⟩
        rw [collapseWs, if_pos (by simp [hd, hr]), ht, if_pos hr, if_pos hd]
      · exact ⟨collapseWs (r :: rest'), by
          rw [collapseWs, if_neg (by simp [hr]), if_pos hd]⟩
    · exact ⟨collapseWs (r :: rest'), by
        rw [collapseWs, if_neg (by simp [hd]), if_neg hd]⟩

theorem collapseWs_mem (l : List Char) :
    ∀ c ∈ collapseWs l, c = ' ' ∨ c ∈ l := by
  induction l with
  | nil => intro c hc; simp [collapseWs] at hc
  | cons c rest ih =>
    intro e he
    cases rest with
    | nil =>
      rw [collapseWs] at he
      split at he
      · simp at he
        exact Or.inl he
      · simp at he
        exact Or.inr (by simp [he])
    | cons d rest' =>
      rw [collapseWs] at he
      split at he
      · rcases ih e he with h | h
        · exact Or.inl h
        · exact Or.inr (List.mem_cons_of_mem c h)
      · rcases List.mem_cons.mp he with h | h
        · subst h
          split
          · exact Or.inl rfl
          · exact Or.inr (List.mem_cons_self c (d :: rest'))
        · rcases ih e h with h' | h'
          · exact Or.inl h'
          · exact Or.inr (List.mem_cons_of_mem c h')

theorem collapseWs_ws_eq_space (l : List Char) :
    ∀ c ∈ collapseWs l, pyIsSpace c = true → c = ' ' := by
  induction l with
  | nil => intro c hc; simp [collapseWs] at hc
  | cons c rest ih =>
    intro e he hwe
    cases rest with
    | nil =>
      rw [collapseWs] at he
      split at he
      · simp at he
        exact he
      · next hnc =>
        simp at he
        rw [he] at hwe
        exact absurd hwe hnc
    | cons d rest' =>
      rw [collapseWs] at he
      split at he
      · exact ih e he hwe
      · rcases List.mem_cons.mp he with h | h
        · subst h
          by_cases hc : pyIsSpace c = true
          · rw [if_pos hc]
          · rw [if_neg hc] at hwe
            exact absurd hwe hc
        · exact ih e h hwe

theorem collapseWs_chain (l : List Char) :
    List.Chain' notBothWs (collapseWs l) := by
  induction l with
  | nil => rw [collapseWs]; exact List.chain'_nil
  | cons c rest ih =>
    cases rest with
    | nil =>
      rw [collapseWs]
      split <;> exact List.chain'_singleton _
    | cons d rest' =>
      rw [collapseWs]
      split
      · exact ih
      · next hboth =>
        refine ih.cons' ?_
        intro y hy
        obtain ⟨t, ht⟩ := collapseWs_head d rest'
        rw [ht] at hy
        simp only [List.head?_cons, Option.mem_def, Option.some.injEq] at hy
        subst hy
        intro hpair
        rcases hpair with ⟨h1, h2⟩
        by_cases hc : pyIsSpace c = true
        · by_cases hd : pyIsSpace d = true
          · exact absurd (by simp [hc, hd]) hboth
          · rw [if_neg hd] at h2
            exact hd h2
        · rw [if_neg hc] at h1
          exact hc h1

theorem collapseWs_fix (l : List Char)
    (h2 : ∀ c ∈ l, pyIsSpace c = true → c = ' ')
    (h3 : List.Chain' notBothWs l) :
    collapseWs l = l := by
  induction l with
  | nil => rw [collapseWs]
  | cons c rest ih =>
    cases rest with
    | nil =>
      rw [collapseWs]
      split
      · next hc => rw [h2 c (List.mem_cons_self c []) hc]
      · rfl
    | cons d rest' =>
      have hrel : notBothWs c d := h3.rel_head
      have hboth : (pyIsSpace c && pyIsSpace d) = false := by
        by_cases hc : pyIsSpace c = true
        · by_cases hd : pyIsSpace d = true
          · exact absurd ⟨hc, hd⟩ hrel
          · simp [hc, hd]
        · simp [hc]
      rw [collapseWs, if_neg (by simp [hboth]),
        ih (fun e he => h2 e (List.mem_cons_of_mem c he)) h3.tail]
      by_cases hc : pyIsSpace c = true
      · rw [if_pos hc, h2 c (List.mem_cons_self c (d :: rest')) hc]
      · rw [if_neg hc]

theorem stripChars_mem (l : List Char) : ∀ c ∈ stripChars l, c ∈ l := by
  intro c hc
  unfold stripChars at hc
  have hp := List.rdropWhile_prefix pyIsSpace (l.dropWhile pyIsSpace)
  have h1 := hp.sublist.mem hc
  exact (dropWhileSuffix pyIsSpace l).sublist.mem h1

theorem stripChars_chain (l : List Char) (h : List.Chain' notBothWs l) :
    List.Chain' notBothWs (stripChars l) := by
  have hp := List.rdropWhile_prefix pyIsSpace (l.dropWhile pyIsSpace)
  exact List.Chain'.prefix (h.suffix (dropWhileSuffix pyIsSpace l)) hp

theorem stripChars_head (l : List Char) (a : Char) (t : List Char)
    (h : stripChars l = a :: t) : pyIsSpace a = false := by
  unfold stripChars at h
  obtain ⟨u, hu⟩ := List.rdropWhile_prefix pyIsSpace (l.dropWhile pyIsSpace)
  rw [h] at hu
  exact dropWhile_head_not pyIsSpace l a (t ++ u) (by rw [← hu]; simp)

theorem stripChars_last (l : List Char) :
    ∀ (h : stripChars l ≠ []), pyIsSpace ((stripChars l).getLast h) = false := by
  intro h
  have := List.rdropWhile_last_not pyIsSpace (l.dropWhile pyIsSpace) h
  simpa using this

theorem stripChars_fix (l : List Char)
    (hh : ∀ a t, l = a :: t → pyIsSpace a = false)
    (hl : ∀ (h : l ≠ []), pyIsSpace (l.getLast h) = false) :
    stripChars l = l := by
  unfold stripChars
  have h1 : l.dropWhile pyIsSpace = l := by
    cases l with
    | nil => rfl
    | cons a t => exact List.dropWhile_cons_of_neg (by simp [hh a t rfl])
  rw [h1, List.rdropWhile_eq_self_iff]
  intro hne
  simp [hl hne]

/-- The shape of every `clean_street_address` output: only allowed
characters, whitespace only as single interior spaces. -/
def cleanedShape (l : List Char) : Prop :=
  (∀ c ∈ l, isAddrKeep c = true) ∧
  (∀ c ∈ l, pyIsSpace c = true → c = ' ') ∧
  List.Chain' notBothWs l ∧
  (∀ a t, l = a :: t → pyIsSpace a = false) ∧
  (∀ (h : l ≠ []), pyIsSpace (l.getLast h) = false)

theorem clean_street_address_shape (s : String) :
    cleanedShape (clean_street_address s).toList := by
  refine ⟨?_, ?_, ?_, ?_, ?_⟩
  · intro c hc
    have h1 := stripChars_mem _ c hc
    rcases collapseWs_mem _ c h1 with h | h
    · rw [h]; decide
    · exact List.of_mem_filter h
  · intro c hc hw
    exact collapseWs_ws_eq_space _ c (stripChars_mem _ c hc) hw
  · exact stripChars_chain _ (collapseWs_chain _)
  · exact stripChars_head _
  · exact stripChars_last _

theorem clean_street_address_fix (l : List Char) (h : cleanedShape l) :
    clean_street_address (String.mk l) = String.mk l := by
  obtain ⟨h1, h2, h3, h4, h5⟩ := h
  have hf1 : l.filter (fun c => !(c == '.')) = l := by
    rw [List.filter_eq_self]
    intro c hc
    have hk := h1 c hc
    simp only [Bool.not_eq_true', beq_eq_false_iff_ne, ne_eq]
    intro hcon
    rw [hcon] at hk
    exact absurd hk (by decide)
  have hf2 : l.filter isAddrKeep = l := List.filter_eq_self.mpr h1
  show String.mk (stripChars (collapseWs (((String.mk l).toList.filter
    (fun c => !(c == '.'))).filter isAddrKeep))) = String.mk l
  have e0 : (String.mk l).toList = l := rfl
  rw [e0, hf1, hf2, collapseWs_fix l h2 h3, stripChars_fix l h4 h5]

theorem string_mk_toList (s : String) : String.mk s.toList = s := rfl

/-- C8: `clean_street_address` is idempotent, its output never contains
a period, and the documented example holds: "N. Main St." is cleaned to
"N Main St". -/
theorem clean_street_address_idempotent_c8 (x : String) :
    clean_street_address (clean_street_address x) = clean_street_address x ∧
    '.' ∉ (clean_street_address x).toList ∧
    clean_street_address "N. Main St." = "N Main St" := by
  refine ⟨?_, ?_, ?_⟩
  · have hs := clean_street_address_shape x
    have hfix := clean_street_address_fix _ hs
    rwa [string_mk_toList] at hfix
  · intro hmem
    have := (clean_street_address_shape x).1 '.' hmem
    exact absurd this (by decide)
  · decide

/-- A value like Python's `datetime.date`: the constructor-enforced
bounds are carried in the structure. -/
structure PyDate where
  year : Nat
  month : Nat
  day : Nat
  year_ge : 1 ≤ year
  year_le : year ≤ 9999
  month_ge : 1 ≤ month
  month_le : month ≤ 12
  day_ge : 1 ≤ day
  day_le : day ≤ 31

/-- Gregorian leap year, as Python's `calendar`/`datetime`. -/
def isLeapYear (y : Nat) : Bool :=
  (y % 4 == 0 && !(y % 100 == 0)) || y % 400 == 0

/-- Days in a month, as validated by `datetime.date`. -/
def daysInMonth (y m : Nat) : Nat :=
  if m == 2 then (if isLeapYear y then 29 else 28)
  else if m == 4 || m == 6 || m == 9 || m == 11 then 30
  else 31

theorem daysInMonth_le (y m : Nat) : daysInMonth y m ≤ 31 := by
  unfold daysInMonth
  split
  · split <;> omega
  · split <;> omega

/-- The `datetime.date(year, month, day)` constructor: `None` models the
`ValueError` raised on out-of-range components. -/
def pyDatetime (y m d : Nat) : Option PyDate :=
  if h : 1 ≤ y ∧ y ≤ 9999 ∧ 1 ≤ m ∧ m ≤ 12 ∧ 1 ≤ d ∧ d ≤ daysInMonth y m then
    some ⟨y, m, d, h.1, h.2.1, h.2.2.1, h.2.2.2.1, h.2.2.2.2.1,
      h.2.2.2.2.2.trans (daysInMonth_le y m)⟩
  else none

def digitVal (c : Char) : Nat := c.toNat - 48

def digitChar (n : Nat) : Char := Char.ofNat (48 + n)

/-- A two-digit numeric token with value in `[lo, hi]`, consumed from the
front; models the two-digit alternatives of strptime's `%m`/`%d`
character classes. -/
def take2 (lo hi : Nat) : List Char → Option (Nat × List Char)
  | a :: b :: r =>
    if isDigitChar a && isDigitChar b then
      let v := 10 * digitVal a + digitVal b
      if lo ≤ v && v ≤ hi then some (v, r) else none
    else none
  | _ => none

/-- A one-digit numeric token with value in `[lo, hi]`, consumed from the
front; models the one-digit alternative of `%m`/`%d`. -/
def take1 (lo hi : Nat) : List Char → Option (Nat × List Char)
  | a :: r =>
    if isDigitChar a then
      let v := digitVal a
      if lo ≤ v && v ≤ hi then some (v, r) else none
    else none
  | [] => none

/-- Full-token `%m`: one or two digits, value 1..12, two-digit
alternatives tried first as in strptime's compiled regex. -/
def matchMonth (l : List Char) : Option Nat :=
  match take2 1 12 l with
  | some (v, []) => some v
  | _ =>
    match take1 1 9 l with
    | some (v, []) => some v
    | _ => none

/-- Full-token `%d`: one or two digits, value 1..31. -/
def matchDay (l : List Char) : Option Nat :=
  match take2 1 31 l with
  | some (v, []) => some v
  | _ =>
    match take1 1 9 l with
    | some (v, []) => some v
    | _ => none

/-- Full-token `%Y`: exactly four digits. -/
def matchYear4 (l : List Char) : Option Nat :=
  match l with
  | [a, b, c, d] =>
    if isDigitChar a && isDigitChar b && isDigitChar c && isDigitChar d then
      some (1000 * digitVal a + 100 * digitVal b + 10 * digitVal c + digitVal d)
    else none
  | _ => none

/-- Full-token `%y`: exactly two digits, with strptime's century rule
(0..68 maps to 2000..2068, 69..99 to 1969..1999). -/
def matchYear2 (l : List Char) : Option Nat :=
  match l with
  | [a, b] =>
    if isDigitChar a && isDigitChar b then
      let v := 10 * digitVal a + digitVal b
      some (if v ≤ 68 then 2000 + v else 1900 + v)
    else none
  | _ => none

/-- One-or-more whitespace, as the `\s+` a blank in a strptime format
compiles to. -/
def ws1 : List Char → Option (List Char)
  | c :: r => if pyIsSpace c then some (r.dropWhile pyIsSpace) else none
  | [] => none

/-- A literal character. -/
def lit (c : Char) : List Char → Option (List Char)
  | x :: r => if x == c then some r else none
  | [] => none

def monthNamesFull : List (String × Nat) :=
  [("january", 1), ("february", 2), ("march", 3), ("april", 4),
   ("may", 5), ("june", 6), ("july", 7), ("august", 8),
   ("september", 9), ("october", 10), ("november", 11), ("december", 12)]

def monthAbbrevs : List (String × Nat) :=
  [("jan", 1), ("feb", 2), ("mar", 3), ("apr", 4), ("may", 5), ("jun", 6),
   ("jul", 7), ("aug", 8), ("sep", 9), ("oct", 10), ("nov", 11), ("dec", 12)]

def stripPrefixChars : List Char → List Char → Option (List Char)
  | [], l => some l
  | _ :: _, [] => none
  | p :: ps, c :: cs => if p == c then stripPrefixChars ps cs else none

/-- `%B` / `%b`: match a month name prefix (input already lowercased;
no month name is a prefix of another, so order is immaterial). -/
def matchMonthName : List (String × Nat) → List Char → Option (Nat × List Char)
  | [], _ => none
  | (nm, n) :: rest, l =>
    match stripPrefixChars nm.toList l with
    | some r => some (n, r)
    | none => matchMonthName rest l

/-- Formats `%B %d, %Y` / `%b %d, %Y` (comma = true) and
`%B %d %Y` / `%b %d %Y` (comma = false); case-insensitive as strptime. -/
def parseNameDY (names : List (String × Nat)) (comma : Bool) (s : String) :
    Option PyDate :=
  let l := s.toList.map pyToLower
  do
    let (m, r1) ← matchMonthName names l
    let r2 ← ws1 r1
    let dy ←
      (do
        let (d, r3) ← take2 1 31 r2
        let r4 ← if comma then lit ',' r3 else pure r3
        let r5 ← ws1 r4
        let y ← matchYear4 r5
        pure (d, y)) <|>
      (do
        let (d, r3) ← take1 1 9 r2
        let r4 ← if comma then lit ',' r3 else pure r3
        let r5 ← ws1 r4
        let y ← matchYear4 r5
        pure (d, y))
    pyDatetime dy.2 m dy.1

/-- Formats `%d %B %Y` / `%d %b %Y`. -/
def parseDNameY (names : List (String × Nat)) (s : String) : Option PyDate :=
  let l := s.toList.map pyToLower
  do
    let dmy ←
      (do
        let (d, r1) ← take2 1 31 l
        let r2 ← ws1 r1
        let (m, r3) ← matchMonthName names r2
        let r4 ← ws1 r3
        let y ← matchYear4 r4
        pure (d, m, y)) <|>
      (do
        let (d, r1) ← take1 1 9 l
        let r2 ← ws1 r1
        let (m, r3) ← matchMonthName names r2
        let r4 ← ws1 r3
        let y ← matchYear4 r4
        pure (d, m, y))
    pyDatetime dmy.2.2 dmy.2.1 dmy.1

/-- Split on a separator character, like Python `str.split(sep)` with a
one-character separator (structural, unlike `String.splitOn`). -/
def splitOnChar (sep : Char) : List Char → List (List Char)
  | [] => [[]]
  | c :: rest =>
    if c == sep then [] :: splitOnChar sep rest
    else
      match splitOnChar sep rest with
      | h :: t => (c :: h) :: t
      | [] => [[c]]

/-- Separated `%m sep %d sep year` formats: the separator splits the
string into exactly three full tokens (the numeric tokens cannot contain
the separator, so this matches the anchored regex). -/
def parseMDY (sep : Char) (yr : List Char → Option Nat) (s : String) :
    Option PyDate :=
  match splitOnChar sep s.toList with
  | [ms, ds, ys] => do
    let m ← matchMonth ms
    let d ← matchDay ds
    let y ← yr ys
    pyDatetime y m d
  | _ => none

/-- Separated `%d sep %m sep year` formats. -/
def parseDMY (sep : Char) (yr : List Char → Option Nat) (s : String) :
    Option PyDate :=
  match splitOnChar sep s.toList with
  | [ds, ms, ys] => do
    let d ← matchDay ds
    let m ← matchMonth ms
    let y ← yr ys
    pyDatetime y m d
  | _ => none

/-- Separated `%Y sep %m sep %d` formats. -/
def parseYMD (sep : Char) (s : String) : Option PyDate :=
  match splitOnChar sep s.toList with
  | [ys, ms, ds] => do
    let y ← matchYear4 ys
    let m ← matchMonth ms
    let d ← matchDay ds
    pyDatetime y m d
  | _ => none

/-- Compact `%Y%m%d`: four digit year, then month/day with the regex's
two-digit-first backtracking. -/
def parseCompactYmd (s : String) : Option PyDate :=
  match s.toList with
  | a :: b :: c :: d :: rest =>
    if isDigitChar a && isDigitChar b && isDigitChar c && isDigitChar d then
      let y := 1000 * digitVal a + 100 * digitVal b + 10 * digitVal c + digitVal d
      let md : Option (Nat × Nat) :=
        (do
          let (m, r) ← take2 1 12 rest
          let dd ← matchDay r
          pure (m, dd)) <|>
        (do
          let (m, r) ← take1 1 9 rest
          let dd ← matchDay r
          pure (m, dd))
      md.bind (fun p => pyDatetime y p.1 p.2)
    else none
  | _ => none

/-- Compact `%m%d` + year: month/day/year with the regex's backtracking
order (two-digit alternatives first, month before day). -/
def parseCompactMDYr (yr : List Char → Option Nat) (s : String) :
    Option PyDate :=
  let l := s.toList
  let mdy : Option (Nat × Nat × Nat) :=
    (do
      let (m, r1) ← take2 1 12 l
      let (d, r2) ← take2 1 31 r1
      let y ← yr r2
      pure (m, d, y)) <|>
    (do
      let (m, r1) ← take2 1 12 l
      let (d, r2) ← take1 1 9 r1
      let y ← yr r2
      pure (m, d, y)) <|>
    (do
      let (m, r1) ← take1 1 9 l
      let (d, r2) ← take2 1 31 r1
      let y ← yr r2
      pure (m, d, y)) <|>
    (do
      let (m, r1) ← take1 1 9 l
      let (d, r2) ← take1 1 9 r1
      let y ← yr r2
      pure (m, d, y))
  mdy.bind (fun p => pyDatetime p.2.2 p.1 p.2.1)

/-- The format list of `normalize_date`, in source order (the source list
contains `%m/%d/%Y` and `%m/%d/%y` twice; the duplicates are kept). -/
def dateFormats : List (String → Option PyDate) :=
  [parseYMD '-',
   parseMDY '/' matchYear4, parseMDY '/' matchYear2,
   parseMDY '-' matchYear4, parseMDY '-' matchYear2,
   parseMDY '/' matchYear4, parseMDY '/' matchYear2,
   parseDMY '/' matchYear4, parseDMY '/' matchYear2,
   parseDMY '-' matchYear4, parseDMY '-' matchYear2,
   parseYMD '/', parseYMD '.',
   parseNameDY monthNamesFull true, parseNameDY monthAbbrevs true,
   parseDNameY monthNamesFull, parseDNameY monthAbbrevs,
   parseNameDY monthNamesFull false, parseNameDY monthAbbrevs false,
   parseCompactYmd, parseCompactMDYr matchYear4, parseCompactMDYr matchYear2]

/-- The `for fmt in formats` loop: first format that parses with a year
inside the 1900..2100 sanity window wins; a parse with an out-of-window
year is skipped and the scan continues. -/
def firstWindow : List (String → Option PyDate) → String → Option PyDate
  | [], _ => none
  | f :: fs, t =>
    match f t with
    | some d => if 1900 ≤ d.year && d.year ≤ 2100 then some d else firstWindow fs t
    | none => firstWindow fs t

/-- The `re.match` check for a string already shaped `YYYY-MM-DD`. -/
def isYYYYMMDD (s : String) : Bool :=
  match s.toList with
  | [a, b, c, d, e, f, g, h, i, j] =>
    isDigitChar a && isDigitChar b && isDigitChar c && isDigitChar d &&
    e == '-' && isDigitChar f && isDigitChar g && h == '-' &&
    isDigitChar i && isDigitChar j
  | _ => false

def natToCharsAux : Nat → Nat → List Char → List Char
  | 0, _, acc => acc
  | fuel + 1, n, acc =>
    if n < 10 then digitChar n :: acc
    else natToCharsAux fuel (n / 10) (digitChar (n % 10) :: acc)

def natToChars (n : Nat) : List Char := natToCharsAux (n + 1) n []

/-- A date component, decimal-rendered and zero-padded to width `w`. -/
def padNum (w n : Nat) : List Char :=
  (zfill w (String.mk (natToChars n))).toList

/-- `dt.strftime('%Y-%m-%d')`: zero-padded components joined by dashes. -/
def renderDate (d : PyDate) : String :=
  String.mk (padNum 4 d.year ++ '-' :: (padNum 2 d.month ++ '-' :: padNum 2 d.day))

/-- `CSVMapper.normalize_date`.  `du` is the oracle for the optional
`dateutil.parser.parse(date_str, fuzzy=False)` fallback: `none` stands
both for "dateutil raised" and for "dateutil is not installed" (the
`ImportError` is swallowed by the bare `except`); the year window check
applied to its result is the source's. -/
def normalize_date (du : String → Option PyDate) (s : String) : String :=
  if pyStrip s = "" then ""
  else
    let t := pyStrip s
    if isYYYYMMDD t then t
    else
      match firstWindow dateFormats t with
      | some d => renderDate d
      | none =>
        match du t with
        | some d =>
          if 1900 ≤ d.year && d.year ≤ 2100 then renderDate d else t
        | none => t

/-- `normalize_date` on an optional argument: Python's
`if not date_str: return ''` also catches `None`. -/
def normalize_date_opt (du : String → Option PyDate) :
    Option String → String
  | none => ""
  | some s => normalize_date du s

/-- Well-formedness of a padded component: exact width, all digits. -/
def padCheck (w n : Nat) : Bool :=
  (padNum w n).length == w && (padNum w n).all isDigitChar

set_option maxRecDepth 8000 in
theorem padCheck_year : ∀ y ∈ List.range' 1900 201, padCheck 4 y = true := by
  decide

theorem padCheck_month : ∀ m ∈ List.range' 1 12, padCheck 2 m = true := by
  decide

theorem padCheck_day : ∀ d ∈ List.range' 1 31, padCheck 2 d = true := by
  decide

theorem padNum_eq4 (n : Nat) (h : padCheck 4 n = true) :
    ∃ a b c d, padNum 4 n = [a, b, c, d] ∧
      (isDigitChar a && isDigitChar b && isDigitChar c && isDigitChar d) = true := by
  simp only [padCheck, Bool.and_eq_true, beq_iff_eq] at h
  obtain ⟨hlen, hall⟩ := h
  set A := padNum 4 n with hA
  obtain ⟨a, t1, he1⟩ := List.exists_of_length_succ A hlen
  have hl1 : t1.length = 3 := by
    have := congrArg List.length he1
    simp at this
    omega
  obtain ⟨b, t2, he2⟩ := List.exists_of_length_succ t1 hl1
  have hl2 : t2.length = 2 := by
    have := congrArg List.length he2
    simp at this
    omega
  obtain ⟨c, t3, he3⟩ := List.exists_of_length_succ t2 hl2
  have hl3 : t3.length = 1 := by
    have := congrArg List.length he3
    simp at this
    omega
  obtain ⟨d, t4, he4⟩ := List.exists_of_length_succ t3 hl3
  have hl4 : t4 = [] := by
    have := congrArg List.length he4
    simp at this
    exact List.length_eq_zero.mp (by omega)
  refine ⟨a, b, c, d, ?_, ?_⟩
  · rw [he1, he2, he3, he4, hl4]
  · have hmem := List.all_eq_true.mp hall
    rw [he1, he2, he3, he4, hl4] at hmem
    simp only [Bool.and_eq_true]
    refine ⟨⟨⟨hmem a (by simp), hmem b (by simp)⟩, hmem c (by simp)⟩, hmem d (by simp)⟩

theorem padNum_eq2 (n : Nat) (h : padCheck 2 n = true) :
    ∃ a b, padNum 2 n = [a, b] ∧
      (isDigitChar a && isDigitChar b) = true := by
  simp only [padCheck, Bool.and_eq_true, beq_iff_eq] at h
  obtain ⟨hlen, hall⟩ := h
  set A := padNum 2 n with hA
  obtain ⟨a, t1, he1⟩ := List.exists_of_length_succ A hlen
  have hl1 : t1.length = 1 := by
    have := congrArg List.length he1
    simp at this
    omega
  obtain ⟨b, t2, he2⟩ := List.exists_of_length_succ t1 hl1
  have hl2 : t2 = [] := by
    have := congrArg List.length he2
    simp at this
    exact List.length_eq_zero.mp (by omega)
  refine ⟨a, b, ?_, ?_⟩
  · rw [he1, he2, hl2]
  · have hmem := List.all_eq_true.mp hall
    rw [he1, he2, hl2] at hmem
    simp only [Bool.and_eq_true]
    exact ⟨hmem a (by simp), hmem b (by simp)⟩

theorem isYYYYMMDD_renderDate (d : PyDate)
    (h1 : 1900 ≤ d.year) (h2 : d.year ≤ 2100) :
    isYYYYMMDD (renderDate d) = true := by
  have hy : padCheck 4 d.year = true :=
    padCheck_year d.year (List.mem_range'_1.mpr ⟨h1, by omega⟩)
  have hm : padCheck 2 d.month = true :=
    padCheck_month d.month (List.mem_range'_1.mpr ⟨d.month_ge, by
      have := d.month_le
      omega⟩)
  have hd : padCheck 2 d.day = true :=
    padCheck_day d.day (List.mem_range'_1.mpr ⟨d.day_ge, by
      have := d.day_le
      omega⟩)
  obtain ⟨a, b, c, e, hAeq, hAdig⟩ := padNum_eq4 d.year hy
  obtain ⟨f, g, hBeq, hBdig⟩ := padNum_eq2 d.month hm
  obtain ⟨i, j, hCeq, hCdig⟩ := padNum_eq2 d.day hd
  unfold renderDate
  rw [hAeq, hBeq, hCeq]
  simp only [Bool.and_eq_true] at hAdig hBdig hCdig
  simp [isYYYYMMDD, hAdig.1.1.1, hAdig.1.1.2, hAdig.1.2, hAdig.2,
    hBdig.1, hBdig.2, hCdig.1, hCdig.2]

theorem firstWindow_some (fs : List (String → Option PyDate)) (t : String)
    (d : PyDate) (h : firstWindow fs t = some d) :
    1900 ≤ d.year ∧ d.year ≤ 2100 := by
  induction fs with
  | nil => simp [firstWindow] at h
  | cons f fs ih =>
    rw [firstWindow] at h
    split at h
    · split at h
      · next hw =>
        obtain rfl := Option.some.inj h
        simpa [Bool.and_eq_true, decide_eq_true_eq] using hw
      · exact ih h
    · exact ih h

/-- C1 (amended): for every input, `normalize_date` returns either a
string in canonical `YYYY-MM-DD` shape or the input stripped of leading
and trailing whitespace (the empty string when the input is blank) — the
original spec's "the original input string unchanged" fails only by that
stripping.  The quantification over `du` covers every possible behavior
of the optional `dateutil` fallback. -/
theorem normalize_date_c1 (du : String → Option PyDate) (s : String) :
    isYYYYMMDD (normalize_date du s) = true ∨
    normalize_date du s = pyStrip s := by
  unfold normalize_date
  by_cases h0 : pyStrip s = ""
  · rw [if_pos h0]
    exact Or.inr h0.symm
  · rw [if_neg h0]
    dsimp only
    by_cases h1 : isYYYYMMDD (pyStrip s) = true
    · rw [if_pos h1]
      exact Or.inr rfl
    · rw [if_neg h1]
      split
      · next d heq =>
        obtain ⟨hw1, hw2⟩ := firstWindow_some _ _ _ heq
        exact Or.inl (isYYYYMMDD_renderDate d hw1 hw2)
      · split
        · next d heq2 =>
          split
          · next hw =>
            simp only [Bool.and_eq_true, decide_eq_true_eq] at hw
            exact Or.inl (isYYYYMMDD_renderDate d hw.1 hw.2)
          · exact Or.inr rfl
        · exact Or.inr rfl

/-- C1 counterexample: on input " x " the normalizer returns the
stripped string "x", which is neither in `YYYY-MM-DD` shape nor equal to
the original input — refuting "canonical form or the original input
string unchanged".  The oracle `fun _ => none` is what `dateutil` does
here: `parser.parse("x", fuzzy=False)` raises (and a missing `dateutil`
raises `ImportError`), both swallowed by the bare `except`. -/
theorem normalize_date_c1_counterexample :
    normalize_date (fun _ => none) " x " = "x" ∧
    ("x" : String) ≠ " x " ∧ isYYYYMMDD "x" = false := by
  refine ⟨by decide, by decide, by decide⟩

/-- C10: a `None`, empty, or whitespace-only input makes
`normalize_date` return the empty string. -/
theorem normalize_date_blank_c10 (du : String → Option PyDate) (s : String)
    (h : pyStrip s = "") :
    normalize_date_opt du none = "" ∧ normalize_date_opt du (some s) = "" := by
  refine ⟨rfl, ?_⟩
  have e1 : normalize_date_opt du (some s) = normalize_date du s := rfl
  rw [e1]
  unfold normalize_date
  rw [if_pos h]

theorem normalize_date_blank_c10_witness :
    pyStrip "  " = "" ∧
    normalize_date_opt (fun _ => none) (some "  ") = "" :=
  ⟨by decide, (normalize_date_blank_c10 (fun _ => none) "  " (by decide)).2⟩

/-- C2 (amended): every `clean_zip_code` output consists only of
characters from 0-9 and A-Z, and an all-digit output is zero-padded to
at least 5 characters; the claimed "exactly 5 or exactly 9 characters"
does not hold (e.g. a six-digit input keeps its six characters). -/
theorem clean_zip_code_c2 (z : String) :
    (∀ c ∈ (clean_zip_code z).toList, isZipChar c = true) ∧
    (pyIsdigit (clean_zip_code z) = true → (clean_zip_code z).length ≥ 5) := by
  refine ⟨clean_zip_code_chars z, ?_⟩
  intro h
  by_cases hzc : pyIsdigit (String.mk ((z.toList.map pyToUpper).filter isZipChar)) = true
  · exact clean_zip_code_digit_len z hzc
  · unfold clean_zip_code at h
    dsimp only at h
    rw [if_neg hzc] at h
    exact absurd h hzc

theorem clean_zip_code_c2_witness :
    pyIsdigit (clean_zip_code "123") = true ∧
    (clean_zip_code "123").length ≥ 5 :=
  ⟨by decide, (clean_zip_code_c2 "123").2 (by decide)⟩

/-- C2 counterexample: the six-digit input "123456" is all digits yet
`clean_zip_code` returns it with length 6, neither 5 nor 9. -/
theorem clean_zip_code_c2_counterexample :
    (clean_zip_code "123456").length = 6 ∧
    ¬((clean_zip_code "123456").length = 5 ∨
      (clean_zip_code "123456").length = 9) :=
  ⟨by decide, by decide⟩

theorem clean_street_address_c8_witness :
    clean_street_address (clean_street_address "N. Main St.") =
      clean_street_address "N. Main St." :=
  (clean_street_address_idempotent_c8 "N. Main St.").1

/-- A Python value held in a shipment record: the mappers store strings,
`int(...)` results, and `float(...)`/`round(...)` results (floats
modelled as exact rationals). -/
inductive PyVal where
  | str (s : String)
  | intv (n : Int)
  | fl (q : ℚ)
deriving DecidableEq, Repr

/-- A Python `dict` with string keys, as an insertion-ordered
association list with unique keys. -/
abbrev Dict (α : Type) := List (String × α)

def dictGet {α : Type} : Dict α → String → Option α
  | [], _ => none
  | (k', v) :: rest, k => if k' == k then some v else dictGet rest k

def dictMember {α : Type} (d : Dict α) (k : String) : Bool :=
  (dictGet d k).isSome

/-- `d[k] = v`: replace in place when the key exists (keeping insertion
order), append otherwise. -/
def dictInsert {α : Type} : Dict α → String → α → Dict α
  | [], k, v => [(k, v)]
  | (k', v') :: rest, k, v =>
    if k' == k then (k', v) :: rest else (k', v') :: dictInsert rest k v

/-- `d.pop(k)`: the record without key `k` (keys are unique in every
dict the code builds, so removing every binding models `pop`). -/
def dictErase {α : Type} (d : Dict α) (k : String) : Dict α :=
  d.filter (fun p => !(p.1 == k))

/-- `d.setdefault(k, v)`. -/
def dictSetdefault {α : Type} (d : Dict α) (k : String) (v : α) : Dict α :=
  if dictMember d k then d else dictInsert d k v

/-- `d.get(k, default)`. -/
def getD (d : Dict String) (k : String) (v : String) : String :=
  (dictGet d k).getD v

theorem dictGet_insert_self {α : Type} (d : Dict α) (k : String) (v : α) :
    dictGet (dictInsert d k v) k = some v := by
  induction d with
  | nil => simp [dictInsert, dictGet]
  | cons p rest ih =>
    rw [dictInsert]
    by_cases h : p.1 == k
    · rw [if_pos h, dictGet, if_pos h]
    · rw [if_neg h, dictGet, if_neg h]
      exact ih

theorem dictGet_insert_ne {α : Type} (d : Dict α) (k k' : String) (v : α)
    (h : k' ≠ k) :
    dictGet (dictInsert d k v) k' = dictGet d k' := by
  have hkk' : (k == k') = false := beq_eq_false_iff_ne.mpr (fun hc => h hc.symm)
  induction d with
  | nil =>
    simp only [dictInsert, dictGet]
    rw [if_neg (by simp [hkk'])]
  | cons p rest ih =>
    rw [dictInsert]
    by_cases hp : (p.1 == k) = true
    · rw [if_pos hp, dictGet, dictGet]
      have hp' : p.1 = k := beq_iff_eq.mp hp
      rw [if_neg (by simp [hp', hkk']), if_neg (by simp [hp', hkk'])]
    · rw [if_neg hp, dictGet, dictGet]
      by_cases hq : (p.1 == k') = true
      · rw [if_pos hq, if_pos hq]
      · rw [if_neg hq, if_neg hq]
        exact ih

theorem dictGet_erase_self {α : Type} (d : Dict α) (k : String) :
    dictGet (dictErase d k) k = none := by
  induction d with
  | nil => rfl
  | cons p rest ih =>
    rw [dictErase, List.filter_cons]
    by_cases h : (p.1 == k) = true
    · rw [if_neg (by simp [h])]
      exact ih
    · rw [if_pos (by simp [h]), dictGet, if_neg h]
      exact ih

theorem dictGet_erase_ne {α : Type} (d : Dict α) (k k' : String)
    (h : k' ≠ k) :
    dictGet (dictErase d k) k' = dictGet d k' := by
  induction d with
  | nil => rfl
  | cons p rest ih =>
    rw [dictErase, List.filter_cons]
    by_cases hp : (p.1 == k) = true
    · rw [if_neg (by simp [hp])]
      have hp' : p.1 = k := beq_iff_eq.mp hp
      rw [dictGet, if_neg (by simp [hp']; exact fun hc => h hc.symm)]
      exact ih
    · rw [if_pos (by simp [hp]), dictGet, dictGet]
      by_cases hq : (p.1 == k') = true
      · rw [if_pos hq, if_pos hq]
      · rw [if_neg hq, if_neg hq]
        exact ih

theorem dictGet_setdefault_ne {α : Type} (d : Dict α) (k k' : String)
    (v : α) (h : k' ≠ k) :
    dictGet (dictSetdefault d k v) k' = dictGet d k' := by
  unfold dictSetdefault
  split
  · rfl
  · exact dictGet_insert_ne d k k' v h

theorem dictGet_setdefault_mem {α : Type} (d : Dict α) (k k' : String)
    (v : α) (h : dictMember d k' = true) :
    dictGet (dictSetdefault d k v) k' = dictGet d k' := by
  by_cases hk : k' = k
  · subst hk
    unfold dictSetdefault
    rw [if_pos (by simpa [dictMember] using h)]
  · exact dictGet_setdefault_ne d k k' v hk

def digitsVal (l : List Char) : Nat :=
  l.foldl (fun a c => 10 * a + digitVal c) 0

/-- A nonempty all-digit run, or nothing. -/
def digitsNat (l : List Char) : Option Nat :=
  if !l.isEmpty && l.all isDigitChar then some (digitsVal l) else none

/-- Python `int(str)`: optional surrounding whitespace, optional sign,
then digits.  (Digit-group underscores are not modelled.) -/
def pyInt (s : String) : Option Int :=
  match stripChars s.toList with
  | '+' :: r => (digitsNat r).map Int.ofNat
  | '-' :: r => (digitsNat r).map (fun n => -(n : Int))
  | r => (digitsNat r).map Int.ofNat

def spanDigits (l : List Char) : List Char × List Char :=
  (l.takeWhile isDigitChar, l.dropWhile isDigitChar)

/-- The mantissa of a Python float literal: `digits [. digits]` or
`. digits`, returning its exact rational value and the rest. -/
def pyFloatMant (l : List Char) : Option (ℚ × List Char) :=
  let ip := (spanDigits l).1
  let r1 := (spanDigits l).2
  match r1 with
  | '.' :: r2 =>
    let fp := (spanDigits r2).1
    let r3 := (spanDigits r2).2
    if ip.isEmpty && fp.isEmpty then none
    else some ((digitsVal ip : ℚ) + (digitsVal fp : ℚ) / ((10 : ℚ) ^ fp.length), r3)
  | _ => if ip.isEmpty then none else some ((digitsVal ip : ℚ), r1)

/-- An optional exponent suffix `(e|E)[+-]digits`. -/
def pyFloatExp (l : List Char) : Option Int :=
  match l with
  | [] => some 0
  | e :: r =>
    if e == 'e' || e == 'E' then
      match r with
      | '+' :: r2 => (digitsNat r2).map Int.ofNat
      | '-' :: r2 => (digitsNat r2).map (fun n => -(n : Int))
      | r2 => (digitsNat r2).map Int.ofNat
    else none

/-- Python `float(str)` on decimal/scientific notation, as an exact
rational.  (`inf`/`nan` literals and underscores are not modelled;
binary-float rounding of the value is not modelled.) -/
def pyFloat (s : String) : Option ℚ :=
  let l := stripChars s.toList
  let sl : ℚ × List Char :=
    match l with
    | '+' :: r => (1, r)
    | '-' :: r => (-1, r)
    | r => (1, r)
  do
    let (m, rest) ← pyFloatMant sl.2
    let e ← pyFloatExp rest
    pure (sl.1 * m * (10 : ℚ) ^ e)

/-- Round half to even, as Python `round`. -/
def pyRoundHalfEven (q : ℚ) : Int :=
  let f : Int := Int.floor q
  let r : ℚ := q - (f : ℚ)
  if r < 1 / 2 then f
  else if r > 1 / 2 then f + 1
  else if f % 2 = 0 then f else f + 1

/-- Python `round(q, 1)` (on the exact rational value; the detour
through binary floats is not modelled). -/
def pyRound1 (q : ℚ) : ℚ :=
  (pyRoundHalfEven (q * 10) : ℚ) / 10

/-- `CSVMapper.bottles_to_liters`:
`round(bottle_count * bottle_size_ml / 1000, 1)`. -/
def bottles_to_liters (bottle_count bottle_size_ml : Int) : ℚ :=
  pyRound1 (((bottle_count * bottle_size_ml : Int) : ℚ) / 1000)

/-- `CSVMapper.COMMON_CARRIER_MAPPINGS`, in source (insertion) order. -/
def COMMON_CARRIER_MAPPINGS : Dict String :=
  [("Ship To Company", "consignee_name"),
   ("Consignee Name", "consignee_name"),
   ("Company", "consignee_name"),
   ("Name", "consignee_name"),
   ("Ship To Street", "consignee_address_line1"),
   ("Ship To Address", "consignee_address_line1"),
   ("Address", "consignee_address_line1"),
   ("Street", "consignee_address_line1"),
   ("Address Line 1", "consignee_address_line1"),
   ("AddressLine1", "consignee_address_line1"),
   ("Ship To City", "consignee_city"),
   ("City", "consignee_city"),
   ("Ship To State", "consignee_state"),
   ("State", "consignee_state"),
   ("Ship To Zip", "consignee_zip"),
   ("Zip", "consignee_zip"),
   ("ZIP", "consignee_zip"),
   ("Zip Code", "consignee_zip"),
   ("ZipCode", "consignee_zip"),
   ("Tracking Nos", "tracking_number"),
   ("Tracking Number", "tracking_number"),
   ("Tracking #", "tracking_number"),
   ("Tracking", "tracking_number"),
   ("TrackingNumber", "tracking_number"),
   ("Order Date", "shipment_date"),
   ("Shipment Date", "shipment_date"),
   ("Date", "shipment_date"),
   ("Ship Date", "shipment_date"),
   ("LB", "weight_of_beverages"),
   ("Weight", "weight_of_beverages"),
   ("Weight (lbs)", "weight_of_beverages"),
   ("Pounds", "weight_of_beverages"),
   ("TYPE", "beverage_type"),
   ("Type", "beverage_type"),
   ("Beverage Type", "beverage_type"),
   ("BeverageType", "beverage_type")]

/-- `CSVMapper.FULFILLMENT_HOUSE_MAPPINGS`, in source order. -/
def FULFILLMENT_HOUSE_MAPPINGS : Dict String :=
  [("Ship To Company", "consignee_name"),
   ("Consignee Name", "consignee_name"),
   ("Company", "consignee_name"),
   ("Name", "consignee_name"),
   ("Ship To Street", "consignee_address_line1"),
   ("Ship To Address", "consignee_address_line1"),
   ("Address", "consignee_address_line1"),
   ("Street", "consignee_address_line1"),
   ("Address Line 1", "consignee_address_line1"),
   ("AddressLine1", "consignee_address_line1"),
   ("Ship To City", "consignee_city"),
   ("City", "consignee_city"),
   ("Ship To State", "consignee_state"),
   ("State", "consignee_state"),
   ("Ship To Zip", "consignee_zip"),
   ("Zip", "consignee_zip"),
   ("ZIP", "consignee_zip"),
   ("Zip Code", "consignee_zip"),
   ("ZipCode", "consignee_zip"),
   ("Tracking Nos", "tracking_number"),
   ("Tracking Number", "tracking_number"),
   ("Tracking #", "tracking_number"),
   ("Tracking", "tracking_number"),
   ("TrackingNumber", "tracking_number"),
   ("Order Date", "shipment_date"),
   ("Shipment Date", "shipment_date"),
   ("Date", "shipment_date"),
   ("Ship Date", "shipment_date"),
   ("BOTTLE COUNT", "bottle_count"),
   ("Bottle Count", "bottle_count"),
   ("BottleCount", "bottle_count"),
   ("Bottles", "bottle_count"),
   ("Count", "bottle_count"),
   ("Qty", "bottle_count"),
   ("Quantity", "bottle_count"),
   ("SIZE", "bottle_size_ml"),
   ("Size", "bottle_size_ml"),
   ("Bottle Size", "bottle_size_ml"),
   ("BottleSize", "bottle_size_ml"),
   ("ML", "bottle_size_ml"),
   ("Size (ml)", "bottle_size_ml")]

/-- Python `str.capitalize()` (ASCII model). -/
def pyCapitalize (s : String) : String :=
  match s.toList with
  | [] => ""
  | c :: r => String.mk (pyToUpper c :: r.map pyToLower)

/-- The `beverage_type` normalization: capitalize, coerce to Unknown
unless the uppercase form is BEER, WINE, SPIRITS or UNKNOWN. -/
def beverageNorm (v : String) : String :=
  let cap := pyCapitalize v
  if pyUpper cap == "BEER" || pyUpper cap == "WINE" ||
      pyUpper cap == "SPIRITS" || pyUpper cap == "UNKNOWN" then cap
  else "Unknown"

/-- `row[csv_field]` with missing keys read as empty. -/
def rowVal (row : Dict String) (h : String) : String :=
  (dictGet row h).getD ""

/-- `csv_field in row and row[csv_field]`: present with a truthy
(non-empty) value. -/
def rowTruthy (row : Dict String) (h : String) : Bool :=
  match dictGet row h with
  | some v => !(v == "")
  | none => false

/-- The per-field transform of `map_to_common_carrier`'s mapping loop. -/
def ccTransform (du : String → Option PyDate) (xmlField value : String) :
    Except String PyVal :=
  if xmlField == "shipment_date" then .ok (.str (normalize_date du value))
  else if xmlField == "consignee_zip" then .ok (.str (clean_zip_code value))
  else if xmlField == "consignee_address_line1" ||
      xmlField == "consignee_address_line2" then
    .ok (.str (clean_street_address value))
  else if xmlField == "weight_of_beverages" then
    match pyFloat value with
    | some q => .ok (.fl q)
    | none => .error ("could not convert string to float: " ++ value)
  else if xmlField == "beverage_type" then .ok (.str (beverageNorm value))
  else .ok (.str value)

/-- The per-field transform of `map_to_fulfillment_house`'s mapping
loop. -/
def fhTransform (du : String → Option PyDate) (xmlField value : String) :
    Except String PyVal :=
  if xmlField == "shipment_date" then .ok (.str (normalize_date du value))
  else if xmlField == "consignee_zip" then .ok (.str (clean_zip_code value))
  else if xmlField == "consignee_address_line1" ||
      xmlField == "consignee_address_line2" then
    .ok (.str (clean_street_address value))
  else if xmlField == "bottle_count" || xmlField == "bottle_size_ml" then
    match pyInt value with
    | some n => .ok (.intv n)
    | none => .error ("invalid literal for int() with base 10: " ++ value)
  else .ok (.str value)

/-- The `for csv_field, xml_field in MAPPINGS.items()` loop: each mapped,
truthy cell is transformed and assigned; a transform failure (the
`ValueError` of `float`/`int`) aborts the mapping. -/
def applyMappings (tf : String → String → Except String PyVal) :
    Dict String → Dict String → Dict PyVal → Except String (Dict PyVal)
  | [], _, s => .ok s
  | (csvField, xmlField) :: rest, row, s =>
    if rowTruthy row csvField then
      match tf xmlField (rowVal row csvField) with
      | .ok v => applyMappings tf rest row (dictInsert s xmlField v)
      | .error e => .error e
    else applyMappings tf rest row s

/-- The consignor seed record of `map_to_common_carrier`. -/
def initConsignor (dc : Dict String) : Dict PyVal :=
  [("consignor_name", .str (getD dc "name" "")),
   ("consignor_address_line1", .str (getD dc "address_line1" "")),
   ("consignor_address_line2", .str (getD dc "address_line2" "")),
   ("consignor_city", .str (getD dc "city" "")),
   ("consignor_state", .str (getD dc "state" "")),
   ("consignor_zip", .str (getD dc "zip" "")),
   ("permit_number", .str (getD dc "permit_number" ""))]

/-- The trailing `setdefault` calls of `map_to_common_carrier`. -/
def ccPost (s : Dict PyVal) : Dict PyVal :=
  dictSetdefault
    (dictSetdefault (dictSetdefault s "tracking_number" (.str ""))
      "bill_of_lading_number" (.str ""))
    "consignee_address_line2" (.str "")

/-- One row of `CSVMapper.map_to_common_carrier`. -/
def mapRowCC (du : String → Option PyDate) (dc : Dict String)
    (row : Dict String) : Except String (Dict PyVal) :=
  (applyMappings (ccTransform du) COMMON_CARRIER_MAPPINGS row
    (initConsignor dc)).map ccPost

/-- `CSVMapper.map_to_common_carrier`. -/
def map_to_common_carrier (du : String → Option PyDate)
    (rows : List (Dict String)) (dc : Dict String) :
    Except String (List (Dict PyVal)) :=
  rows.mapM (mapRowCC du dc)

/-- The manufacturer seed record of `map_to_fulfillment_house`. -/
def initManufacturer (dm : Dict String) (permit : String) : Dict PyVal :=
  [("manufacturer_name", .str (getD dm "name" "")),
   ("manufacturer_address_line1", .str (getD dm "address_line1" "")),
   ("manufacturer_address_line2", .str (getD dm "address_line2" "")),
   ("manufacturer_city", .str (getD dm "city" "")),
   ("manufacturer_state", .str (getD dm "state" "")),
   ("manufacturer_zip", .str (getD dm "zip" "")),
   ("wine_permit_number", .str (getD dm "wine_permit_number" "")),
   ("common_carrier_permit_number", .str permit)]

/-- The bottles-to-liters conversion step of `map_to_fulfillment_house`:
when both transient fields are present they are popped and combined into
`quantity_of_wine`.  (The loop stores only `intv` values under those
keys, so the non-`intv` arm is unreachable.) -/
def fhConvert (s : Dict PyVal) : Dict PyVal :=
  if dictMember s "bottle_count" && dictMember s "bottle_size_ml" then
    let s1 := dictErase (dictErase s "bottle_count") "bottle_size_ml"
    match dictGet s "bottle_count", dictGet s "bottle_size_ml" with
    | some (.intv c), some (.intv z) =>
      dictInsert s1 "quantity_of_wine" (.fl (bottles_to_liters c z))
    | _, _ => s1
  else s

/-- The trailing `setdefault` calls of `map_to_fulfillment_house`. -/
def fhPost (s : Dict PyVal) : Dict PyVal :=
  dictSetdefault
    (dictSetdefault (dictSetdefault s "tracking_number" (.str ""))
      "consignee_address_line2" (.str ""))
    "different_consignor_name" (.str "")

/-- One row of `CSVMapper.map_to_fulfillment_house`. -/
def mapRowFH (du : String → Option PyDate) (dm : Dict String)
    (permit : String) (row : Dict String) : Except String (Dict PyVal) :=
  (applyMappings (fhTransform du) FULFILLMENT_HOUSE_MAPPINGS row
    (initManufacturer dm permit)).map (fun s => fhPost (fhConvert s))

/-- `CSVMapper.map_to_fulfillment_house`. -/
def map_to_fulfillment_house (du : String → Option PyDate)
    (rows : List (Dict String)) (dm : Dict String) (permit : String) :
    Except String (List (Dict PyVal)) :=
  rows.mapM (mapRowFH du dm permit)

deriving instance DecidableEq for Except

def exceptOk {ε α : Type} : Except ε α → Bool
  | .ok _ => true
  | .error _ => false

theorem applyMappings_append (tf : String → String → Except String PyVal)
    (l₁ l₂ : Dict String) (row : Dict String) (s : Dict PyVal) :
    applyMappings tf (l₁ ++ l₂) row s =
      match applyMappings tf l₁ row s with
      | .ok s' => applyMappings tf l₂ row s'
      | .error e => .error e := by
  induction l₁ generalizing s with
  | nil => simp [applyMappings]
  | cons p rest ih =>
    obtain ⟨csvF, xmlF⟩ := p
    rw [List.cons_append, applyMappings, applyMappings]
    by_cases ht : rowTruthy row csvF = true
    · rw [if_pos ht, if_pos ht]
      cases htf : tf xmlF (rowVal row csvF) with
      | ok v => exact ih (dictInsert s xmlF v)
      | error e => rfl
    · rw [if_neg ht, if_neg ht]
      exact ih s

theorem applyMappings_frame (tf : String → String → Except String PyVal)
    (l : Dict String) (row : Dict String) (s s' : Dict PyVal) (f : String)
    (hno : ∀ p ∈ l, p.2 = f → rowTruthy row p.1 = false)
    (h : applyMappings tf l row s = .ok s') :
    dictGet s' f = dictGet s f := by
  induction l generalizing s with
  | nil =>
    simp only [applyMappings, Except.ok.injEq] at h
    rw [h]
  | cons p rest ih =>
    obtain ⟨csvF, xmlF⟩ := p
    rw [applyMappings] at h
    by_cases ht : rowTruthy row csvF = true
    · rw [if_pos ht] at h
      cases htf : tf xmlF (rowVal row csvF) with
      | error e =>
        rw [htf] at h
        exact absurd h (by simp)
      | ok v =>
        rw [htf] at h
        have hne : xmlF ≠ f := by
          intro hc
          have hcon := hno (csvF, xmlF) (List.mem_cons_self _ _) hc
          rw [ht] at hcon
          simp at hcon
        have hrec := ih (dictInsert s xmlF v)
          (fun p hp hpf => hno p (List.mem_cons_of_mem _ hp) hpf) h
        rw [hrec, dictGet_insert_ne s xmlF f v (fun hc => hne hc.symm)]
    · rw [if_neg ht] at h
      exact ih s (fun p hp hpf => hno p (List.mem_cons_of_mem _ hp) hpf) h

theorem applyMappings_last_wins (tf : String → String → Except String PyVal)
    (pre post : Dict String) (h2 f : String) (w : PyVal)
    (row : Dict String) (s₀ s₁ : Dict PyVal)
    (ht2 : rowTruthy row h2 = true)
    (htf : tf f (rowVal row h2) = .ok w)
    (hlater : ∀ p ∈ post, p.2 = f → rowTruthy row p.1 = false)
    (hok : applyMappings tf (pre ++ (h2, f) :: post) row s₀ = .ok s₁) :
    dictGet s₁ f = some w := by
  rw [applyMappings_append] at hok
  cases hpre : applyMappings tf pre row s₀ with
  | error e =>
    rw [hpre] at hok
    simp at hok
  | ok s₂ =>
    rw [hpre] at hok
    dsimp only at hok
    rw [applyMappings, if_pos ht2, htf] at hok
    have hfr := applyMappings_frame tf post row _ s₁ f hlater hok
    rw [hfr, dictGet_insert_self]

theorem applyMappings_stuck (tf : String → String → Except String PyVal)
    (l : Dict String) (row : Dict String) (s : Dict PyVal) (h f : String)
    (hmem : (h, f) ∈ l) (ht : rowTruthy row h = true)
    (hbad : ∀ v, tf f (rowVal row h) ≠ .ok v) :
    exceptOk (applyMappings tf l row s) = false := by
  induction l generalizing s with
  | nil => simp at hmem
  | cons p rest ih =>
    obtain ⟨csvF, xmlF⟩ := p
    rw [applyMappings.eq_def]
    dsimp only
    by_cases htr : rowTruthy row csvF = true
    · rw [if_pos htr]
      cases htf : tf xmlF (rowVal row csvF) with
      | error e => rfl
      | ok v =>
        rcases List.mem_cons.mp hmem with heq | hmem'
        · have h1 : h = csvF := congrArg Prod.fst heq
          have h2 : f = xmlF := congrArg Prod.snd heq
          rw [← h1, ← h2] at htf
          exact absurd htf (hbad v)
        · exact ih (dictInsert s xmlF v) hmem'
    · rw [if_neg htr]
      rcases List.mem_cons.mp hmem with heq | hmem'
      · have h1 : h = csvF := congrArg Prod.fst heq
        rw [← h1] at htr
        exact absurd ht htr
      · exact ih s hmem'

theorem dictGet_setdefault_of_some {α : Type} (d : Dict α) (k k' : String)
    (v w : α) (h : dictGet d k' = some w) :
    dictGet (dictSetdefault d k v) k' = some w := by
  rw [dictGet_setdefault_mem d k k' v (by simp [dictMember, h])]
  exact h

theorem fhPost_get_ne (s : Dict PyVal) (k : String)
    (h1 : k ≠ "tracking_number") (h2 : k ≠ "consignee_address_line2")
    (h3 : k ≠ "different_consignor_name") :
    dictGet (fhPost s) k = dictGet s k := by
  unfold fhPost
  rw [dictGet_setdefault_ne _ _ _ _ h3, dictGet_setdefault_ne _ _ _ _ h2,
    dictGet_setdefault_ne _ _ _ _ h1]

theorem ccPost_get_of_some (s : Dict PyVal) (k : String) (w : PyVal)
    (h : dictGet s k = some w) :
    dictGet (ccPost s) k = some w := by
  unfold ccPost
  exact dictGet_setdefault_of_some _ _ _ _ _
    (dictGet_setdefault_of_some _ _ _ _ _
      (dictGet_setdefault_of_some _ _ _ _ _ h))

/-- C3 (amended): when the mapping loop has stored both `bottle_count`
and `bottle_size_ml` for a row, the finished FulfillmentHouse record
contains neither raw field and carries
`quantity_of_wine = round(count * size_ml / 1000, 1)` (floats modelled
as exact rationals).  The original claim's "never contains the raw
fields" fails when only one of the two is mapped — see the
counterexample. -/
theorem map_to_fulfillment_house_c3 (du : String → Option PyDate)
    (dm : Dict String) (permit : String) (row : Dict String)
    (s₀ : Dict PyVal) (c z : Int)
    (hfold : applyMappings (fhTransform du) FULFILLMENT_HOUSE_MAPPINGS row
      (initManufacturer dm permit) = .ok s₀)
    (hc : dictGet s₀ "bottle_count" = some (.intv c))
    (hz : dictGet s₀ "bottle_size_ml" = some (.intv z)) :
    mapRowFH du dm permit row = .ok (fhPost (fhConvert s₀)) ∧
    dictMember (fhPost (fhConvert s₀)) "bottle_count" = false ∧
    dictMember (fhPost (fhConvert s₀)) "bottle_size_ml" = false ∧
    dictGet (fhPost (fhConvert s₀)) "quantity_of_wine" =
      some (.fl (bottles_to_liters c z)) := by
  have hconv : fhConvert s₀ =
      dictInsert (dictErase (dictErase s₀ "bottle_count") "bottle_size_ml")
        "quantity_of_wine" (.fl (bottles_to_liters c z)) := by
    unfold fhConvert
    rw [if_pos (by simp [dictMember, hc, hz])]
    rw [hc, hz]
  refine ⟨?_, ?_, ?_, ?_⟩
  · unfold mapRowFH
    rw [hfold]
    rfl
  · unfold dictMember
    rw [fhPost_get_ne _ _ (by decide) (by decide) (by decide), hconv,
      dictGet_insert_ne _ _ _ _ (by decide),
      dictGet_erase_ne _ _ _ (by decide), dictGet_erase_self]
    rfl
  · unfold dictMember
    rw [fhPost_get_ne _ _ (by decide) (by decide) (by decide), hconv,
      dictGet_insert_ne _ _ _ _ (by decide), dictGet_erase_self]
    rfl
  · rw [fhPost_get_ne _ _ (by decide) (by decide) (by decide), hconv,
      dictGet_insert_self]

/-- C3 counterexample: a row supplying only a bottle count (header
`Qty`) and no bottle size leaves the raw `bottle_count` in the mapped
record and derives no `quantity_of_wine` — the record does contain a raw
field. -/
theorem map_to_fulfillment_house_c3_counterexample :
    (map_to_fulfillment_house (fun _ => none) [[("Qty", "3")]] [] "P").map
      (fun l => l.map (fun s =>
        (dictMember s "bottle_count", dictMember s "quantity_of_wine"))) =
      .ok [(true, false)] := by
  decide

theorem map_to_fulfillment_house_c3_witness :
    dictMember (fhPost (fhConvert
      [("manufacturer_name", .str ""), ("manufacturer_address_line1", .str ""),
       ("manufacturer_address_line2", .str ""), ("manufacturer_city", .str ""),
       ("manufacturer_state", .str ""), ("manufacturer_zip", .str ""),
       ("wine_permit_number", .str ""),
       ("common_carrier_permit_number", .str "P"),
       ("bottle_count", .intv 3), ("bottle_size_ml", .intv 750)]))
      "bottle_count" = false ∧
    dictGet (fhPost (fhConvert
      [("manufacturer_name", .str ""), ("manufacturer_address_line1", .str ""),
       ("manufacturer_address_line2", .str ""), ("manufacturer_city", .str ""),
       ("manufacturer_state", .str ""), ("manufacturer_zip", .str ""),
       ("wine_permit_number", .str ""),
       ("common_carrier_permit_number", .str "P"),
       ("bottle_count", .intv 3), ("bottle_size_ml", .intv 750)]))
      "quantity_of_wine" = some (.fl (bottles_to_liters 3 750)) := by
  have h := map_to_fulfillment_house_c3 (fun _ => none) [] "P"
    [("Qty", "3"), ("SIZE", "750")]
    [("manufacturer_name", .str ""), ("manufacturer_address_line1", .str ""),
     ("manufacturer_address_line2", .str ""), ("manufacturer_city", .str ""),
     ("manufacturer_state", .str ""), ("manufacturer_zip", .str ""),
     ("wine_permit_number", .str ""),
     ("common_carrier_permit_number", .str "P"),
     ("bottle_count", .intv 3), ("bottle_size_ml", .intv 750)]
    3 750 (by decide) (by decide) (by decide)
  exact ⟨h.2.1, h.2.2.2⟩

/-- C4: when two different raw headers present in the same row map to
the same canonical field, the one that comes later in the mapping
table's iteration order wins: the field's final value is the transform
of that later column's cell.  (The loop iterates the synonym table in
insertion order and each assignment overwrites the previous one.) -/
theorem map_to_common_carrier_c4 (du : String → Option PyDate)
    (dc row : Dict String) (pre post : Dict String)
    (h1 h2 f : String) (w : PyVal) (s : Dict PyVal)
    (htable : COMMON_CARRIER_MAPPINGS = pre ++ (h2, f) :: post)
    (hmem : (h1, f) ∈ pre)
    (hne : h1 ≠ h2)
    (ht1 : rowTruthy row h1 = true)
    (ht2 : rowTruthy row h2 = true)
    (hlater : ∀ p ∈ post, p.2 = f → rowTruthy row p.1 = false)
    (htf : ccTransform du f (rowVal row h2) = .ok w)
    (hok : mapRowCC du dc row = .ok s) :
    dictGet s f = some w := by
  unfold mapRowCC at hok
  cases hfold : applyMappings (ccTransform du) COMMON_CARRIER_MAPPINGS row
      (initConsignor dc) with
  | error e =>
    rw [hfold] at hok
    simp [Except.map] at hok
  | ok s₁ =>
    rw [hfold] at hok
    simp only [Except.map, Except.ok.injEq] at hok
    rw [htable] at hfold
    have hw := applyMappings_last_wins (ccTransform du) pre post h2 f w row
      _ s₁ ht2 htf hlater hfold
    rw [← hok]
    exact ccPost_get_of_some s₁ f w hw

theorem map_to_common_carrier_c4_witness :
    dictGet
      ([("consignor_name", PyVal.str ""),
        ("consignor_address_line1", PyVal.str ""),
        ("consignor_address_line2", PyVal.str ""),
        ("consignor_city", PyVal.str ""), ("consignor_state", PyVal.str ""),
        ("consignor_zip", PyVal.str ""), ("permit_number", PyVal.str ""),
        ("consignee_name", PyVal.str "B"), ("tracking_number", PyVal.str ""),
        ("bill_of_lading_number", PyVal.str ""),
        ("consignee_address_line2", PyVal.str "")] : Dict PyVal)
      "consignee_name" = some (PyVal.str "B") :=
  map_to_common_carrier_c4 (fun _ => none) []
    [("Ship To Company", "A"), ("Name", "B")]
    (COMMON_CARRIER_MAPPINGS.take 3) (COMMON_CARRIER_MAPPINGS.drop 4)
    "Ship To Company" "Name" "consignee_name" (PyVal.str "B")
    [("consignor_name", PyVal.str ""),
     ("consignor_address_line1", PyVal.str ""),
     ("consignor_address_line2", PyVal.str ""),
     ("consignor_city", PyVal.str ""), ("consignor_state", PyVal.str ""),
     ("consignor_zip", PyVal.str ""), ("permit_number", PyVal.str ""),
     ("consignee_name", PyVal.str "B"), ("tracking_number", PyVal.str ""),
     ("bill_of_lading_number", PyVal.str ""),
     ("consignee_address_line2", PyVal.str "")]
    (by decide) (by decide) (by decide) (by decide) (by decide)
    (by decide) (by decide) (by decide)

theorem ccTransform_weight (du : String → Option PyDate) (v : String) :
    ccTransform du "weight_of_beverages" v =
      match pyFloat v with
      | some q => .ok (.fl q)
      | none => .error ("could not convert string to float: " ++ v) := by
  rfl

/-- C7: a present, non-empty `weight_of_beverages` cell that `float()`
cannot parse makes the row mapping fail (the `ValueError`), and a
numeric cell is stored as the parsed decimal value. -/
theorem map_to_common_carrier_c7 (du : String → Option PyDate)
    (dc row : Dict String) (h : String) :
    ((h, "weight_of_beverages") ∈ COMMON_CARRIER_MAPPINGS →
      rowTruthy row h = true →
      pyFloat (rowVal row h) = none →
      exceptOk (mapRowCC du dc row) = false) ∧
    (∀ pre post q s,
      COMMON_CARRIER_MAPPINGS = pre ++ (h, "weight_of_beverages") :: post →
      rowTruthy row h = true →
      pyFloat (rowVal row h) = some q →
      (∀ p ∈ post, p.2 = "weight_of_beverages" → rowTruthy row p.1 = false) →
      mapRowCC du dc row = .ok s →
      dictGet s "weight_of_beverages" = some (.fl q)) := by
  constructor
  · intro hmem ht hbad
    unfold mapRowCC
    have hstuck := applyMappings_stuck (ccTransform du)
      COMMON_CARRIER_MAPPINGS row (initConsignor dc) h "weight_of_beverages"
      hmem ht (by
        intro v hv
        rw [ccTransform_weight, hbad] at hv
        simp at hv)
    cases happ : applyMappings (ccTransform du) COMMON_CARRIER_MAPPINGS row
        (initConsignor dc) with
    | ok s' =>
      rw [happ] at hstuck
      simp [exceptOk] at hstuck
    | error e => rfl
  · intro pre post q s htable ht hq hlater hok
    unfold mapRowCC at hok
    cases hfold : applyMappings (ccTransform du) COMMON_CARRIER_MAPPINGS row
        (initConsignor dc) with
    | error e =>
      rw [hfold] at hok
      simp [Except.map] at hok
    | ok s₁ =>
      rw [hfold] at hok
      simp only [Except.map, Except.ok.injEq] at hok
      rw [htable] at hfold
      have htf : ccTransform du "weight_of_beverages" (rowVal row h) =
          .ok (.fl q) := by
        rw [ccTransform_weight, hq]
      have hw := applyMappings_last_wins (ccTransform du) pre post h
        "weight_of_beverages" (.fl q) row _ s₁ ht htf hlater hfold
      rw [← hok]
      exact ccPost_get_of_some s₁ _ _ hw

/-- The mapped record of the numeric-weight witness row, taken from the
mapper itself so that no rational arithmetic needs to be decided. -/
def c7s : Dict PyVal :=
  match mapRowCC (fun _ => none) [] [("LB", "10")] with
  | .ok s => s
  | .error _ => []

/-- The parsed decimal of the witness cell, taken from `pyFloat`
itself. -/
def c7q : ℚ :=
  match pyFloat "10" with
  | some q => q
  | none => 0

theorem map_to_common_carrier_c7_witness :
    exceptOk (mapRowCC (fun _ => none) [] [("LB", "x")]) = false ∧
    dictGet c7s "weight_of_beverages" = some (PyVal.fl c7q) := by
  constructor
  · exact (map_to_common_carrier_c7 (fun _ => none) [] [("LB", "x")] "LB").1
      (by decide) (by decide) (by decide)
  · exact (map_to_common_carrier_c7 (fun _ => none) [] [("LB", "10")] "LB").2
      (COMMON_CARRIER_MAPPINGS.take 28) (COMMON_CARRIER_MAPPINGS.drop 29)
      c7q c7s (by decide) (by decide) (by rfl) (by decide) (by rfl)

/-- An XML element as `lxml.etree` builds it here: a tag, optional text,
children. -/
inductive Xml where
  | elem (tag : String) (text : Option String) (children : List Xml)

def xmlEscapeChar (c : Char) : String :=
  if c == '&' then "&amp;"
  else if c == '<' then "&lt;"
  else if c == '>' then "&gt;"
  else String.singleton c

def xmlEscape (s : String) : String :=
  String.join (s.toList.map xmlEscapeChar)

def squoteChar : Char := Char.ofNat 39

/-- The XML declaration lxml emits for
`xml_declaration=True, encoding='UTF-8'` (single quotes). -/
def xmlDecl : String :=
  "<?xml version=" ++ String.singleton squoteChar ++ "1.0" ++
  String.singleton squoteChar ++ " encoding=" ++
  String.singleton squoteChar ++ "UTF-8" ++
  String.singleton squoteChar ++ "?>\n"

def indentStr (n : Nat) : String :=
  String.mk (List.replicate (2 * n) ' ')

/-- `pretty_print=True` rendering, two-space indent, one element per
line.  Fuel-based recursion (structural, so concrete documents evaluate
in the kernel); documents built by `generate_xml` are at most four
levels deep, far below the fuel. -/
def renderXmlF : Nat → Nat → Xml → String
  | 0, _, _ => ""
  | fuel + 1, ind, .elem tag txt children =>
    match children with
    | [] =>
      indentStr ind ++
        (match txt with
         | none => "<" ++ tag ++ "/>"
         | some t =>
           if t == "" then "<" ++ tag ++ "/>"
           else "<" ++ tag ++ ">" ++ xmlEscape t ++ "</" ++ tag ++ ">") ++
        "\n"
    | _ =>
      indentStr ind ++ "<" ++ tag ++ ">\n" ++
      String.join (children.map (renderXmlF fuel (ind + 1))) ++
      indentStr ind ++ "</" ++ tag ++ ">\n"

/-- `XMLGenerator._to_xml_string`. -/
def to_xml_string (root : Xml) : String :=
  xmlDecl ++ renderXmlF 16 0 root

def natToString (n : Nat) : String := String.mk (natToChars n)

def intStr (n : Int) : String :=
  if n < 0 then "-" ++ natToString n.natAbs else natToString n.natAbs

/-- Python `str` on the values a shipment record can hold.  Floats are
rendered from the exact rational: integral values as `n.0` and tenths
exactly, which covers every value `bottles_to_liters`/`float()` stores
here; other rationals fall back to a fraction rendering (binary float
`repr` is not modelled). -/
def pyValStr : PyVal → String
  | .str s => s
  | .intv n => intStr n
  | .fl q =>
    if q.den = 1 then intStr q.num ++ ".0"
    else
      if (q * 10).den = 1 then
        (if q < 0 then "-" else "") ++
        natToString ((q * 10).num.natAbs / 10) ++ "." ++
        natToString ((q * 10).num.natAbs % 10)
      else intStr q.num ++ "/" ++ natToString q.den

/-- `data[k]` on the filer dict: `KeyError(k)` when absent. -/
def reqGetS (d : Dict String) (k : String) : Except String String :=
  match dictGet d k with
  | some v => .ok v
  | none => .error k

/-- `data[k]` on a shipment dict. -/
def reqGetV (d : Dict PyVal) (k : String) : Except String PyVal :=
  match dictGet d k with
  | some v => .ok v
  | none => .error k

def pyTruthy : PyVal → Bool
  | .str s => !(s == "")
  | .intv n => !(n == 0)
  | .fl q => !(q == 0)

/-- `data.get(k)` used as a condition. -/
def optTruthy (d : Dict PyVal) (k : String) : Bool :=
  match dictGet d k with
  | some v => pyTruthy v
  | none => false

/-- `data.get(k)` used as a condition, filer dict. -/
def optTruthyS (d : Dict String) (k : String) : Bool :=
  match dictGet d k with
  | some v => !(v == "")
  | none => false

def getVD (d : Dict PyVal) (k : String) : PyVal :=
  (dictGet d k).getD (.str "")

/-- `XMLGenerator._add_common_carrier_shipment`.  The required
`data[...]` accesses are bound in source order (interleaved optional
`.get` accesses are total, so hoisting them cannot change which
`KeyError` is raised). -/
def addCommonCarrierShipment (data : Dict PyVal) : Except String Xml := do
  let consignorName ← reqGetV data "consignor_name"
  let consignorA1 ← reqGetV data "consignor_address_line1"
  let consignorCity ← reqGetV data "consignor_city"
  let consignorState ← reqGetV data "consignor_state"
  let consignorZip ← reqGetV data "consignor_zip"
  let consigneeName ← reqGetV data "consignee_name"
  let consigneeA1 ← reqGetV data "consignee_address_line1"
  let consigneeCity ← reqGetV data "consignee_city"
  let consigneeState ← reqGetV data "consignee_state"
  let consigneeZip ← reqGetV data "consignee_zip"
  let shipmentDate ← reqGetV data "shipment_date"
  let weight ← reqGetV data "weight_of_beverages"
  pure (.elem "Shipment" none (
    [Xml.elem "ConsignorName" (some (pyValStr consignorName)) [],
     Xml.elem "ConsignorAddress" none
       ([Xml.elem "AddressLine1" (some (pyValStr consignorA1)) []] ++
        (if optTruthy data "consignor_address_line2" then
          [Xml.elem "AddressLine2"
            (some (pyValStr (getVD data "consignor_address_line2"))) []]
         else []) ++
        [Xml.elem "City" (some (pyValStr consignorCity)) [],
         Xml.elem "State" (some (pyValStr consignorState)) [],
         Xml.elem "ZIP" (some (pyValStr consignorZip)) []])] ++
    (if optTruthy data "permit_number" then
      [Xml.elem "PermitNumber" (some (pyValStr (getVD data "permit_number"))) []]
     else []) ++
    [Xml.elem "ConsigneeName" (some (pyValStr consigneeName)) [],
     Xml.elem "ConsigneeAddress" none
       ([Xml.elem "AddressLine1" (some (pyValStr consigneeA1)) []] ++
        (if optTruthy data "consignee_address_line2" then
          [Xml.elem "AddressLine2"
            (some (pyValStr (getVD data "consignee_address_line2"))) []]
         else []) ++
        [Xml.elem "City" (some (pyValStr consigneeCity)) [],
         Xml.elem "State" (some (pyValStr consigneeState)) [],
         Xml.elem "ZIP" (some (pyValStr consigneeZip)) []]),
     Xml.elem "ShipmentDate" (some (pyValStr shipmentDate)) []] ++
    (if optTruthy data "beverage_type" then
      [Xml.elem "BeverageType" (some (pyValStr (getVD data "beverage_type"))) []]
     else []) ++
    [Xml.elem "WeightOfBeverages" (some (pyValStr weight)) [],
     Xml.elem "TrackingNumber"
       (some (pyValStr (getVD data "tracking_number"))) []] ++
    (if optTruthy data "bill_of_lading_number" then
      [Xml.elem "BillOfLadingNumber"
        (some (pyValStr (getVD data "bill_of_lading_number"))) []]
     else [])))

/-- `XMLGenerator._add_fulfillment_house_shipment`, required accesses in
source order; the `DifferentConsignor` block and its required fields are
built only when `different_consignor_name` is truthy. -/
def addFulfillmentHouseShipment (data : Dict PyVal) : Except String Xml := do
  let mfrA1 ← reqGetV data "manufacturer_address_line1"
  let mfrCity ← reqGetV data "manufacturer_city"
  let mfrState ← reqGetV data "manufacturer_state"
  let mfrZip ← reqGetV data "manufacturer_zip"
  let winePermit ← reqGetV data "wine_permit_number"
  let mfrName ← reqGetV data "manufacturer_name"
  let consigneeName ← reqGetV data "consignee_name"
  let consigneeA1 ← reqGetV data "consignee_address_line1"
  let consigneeCity ← reqGetV data "consignee_city"
  let consigneeState ← reqGetV data "consignee_state"
  let consigneeZip ← reqGetV data "consignee_zip"
  let shipmentDate ← reqGetV data "shipment_date"
  let ccPermit ← reqGetV data "common_carrier_permit_number"
  let qty ← reqGetV data "quantity_of_wine"
  let diff ←
    if optTruthy data "different_consignor_name" then do
      let dA1 ← reqGetV data "different_consignor_address_line1"
      let dCity ← reqGetV data "different_consignor_city"
      let dState ← reqGetV data "different_consignor_state"
      let dZip ← reqGetV data "different_consignor_zip"
      pure [Xml.elem "DifferentConsignor" none
        [Xml.elem "ConsignorName"
          (some (pyValStr (getVD data "different_consignor_name"))) [],
         Xml.elem "ConsignorAddress" none
           ([Xml.elem "AddressLine1" (some (pyValStr dA1)) []] ++
            (if optTruthy data "different_consignor_address_line2" then
              [Xml.elem "AddressLine2" (some (pyValStr
                (getVD data "different_consignor_address_line2"))) []]
             else []) ++
            [Xml.elem "City" (some (pyValStr dCity)) [],
             Xml.elem "State" (some (pyValStr dState)) [],
             Xml.elem "ZIP" (some (pyValStr dZip)) []])]]
    else pure []
  pure (.elem "Shipment" none (
    [Xml.elem "ManufacturerAddress" none
       ([Xml.elem "AddressLine1" (some (pyValStr mfrA1)) []] ++
        (if optTruthy data "manufacturer_address_line2" then
          [Xml.elem "AddressLine2"
            (some (pyValStr (getVD data "manufacturer_address_line2"))) []]
         else []) ++
        [Xml.elem "City" (some (pyValStr mfrCity)) [],
         Xml.elem "State" (some (pyValStr mfrState)) [],
         Xml.elem "ZIP" (some (pyValStr mfrZip)) []]),
     Xml.elem "WinePermitNumber" (some (pyValStr winePermit)) [],
     Xml.elem "ManufacturerName" (some (pyValStr mfrName)) [],
     Xml.elem "ConsigneeName" (some (pyValStr consigneeName)) [],
     Xml.elem "ConsigneeAddress" none
       ([Xml.elem "AddressLine1" (some (pyValStr consigneeA1)) []] ++
        (if optTruthy data "consignee_address_line2" then
          [Xml.elem "AddressLine2"
            (some (pyValStr (getVD data "consignee_address_line2"))) []]
         else []) ++
        [Xml.elem "City" (some (pyValStr consigneeCity)) [],
         Xml.elem "State" (some (pyValStr consigneeState)) [],
         Xml.elem "ZIP" (some (pyValStr consigneeZip)) []]),
     Xml.elem "ShipmentDate" (some (pyValStr shipmentDate)) [],
     Xml.elem "TrackingNumber"
       (some (pyValStr (getVD data "tracking_number"))) [],
     Xml.elem "CommonCarrierPermitNumber" (some (pyValStr ccPermit)) [],
     Xml.elem "QuantityOfWine" (some (pyValStr qty)) []] ++ diff))

/-- `XMLGenerator.generate_xml`: the document in schema order — tax
period dates, Filer block, AckAddress, optional AmendedReturnIndicator
(literal "X"), then one Shipment per record in input order — serialized
with declaration and pretty-printing.  A `KeyError` (missing required
field) is the error value. -/
def generate_xml (reportType : String) (filer : Dict String)
    (shipments : List (Dict PyVal))
    (tax_period_begin tax_period_end ack_email : String)
    (amended : Bool) : Except String String := do
  let tinValue ← reqGetS filer "tin_value"
  let businessName1 ← reqGetS filer "business_name_line1"
  let addressLine1 ← reqGetS filer "address_line1"
  let city ← reqGetS filer "city"
  let state ← reqGetS filer "state"
  let zipValue ← reqGetS filer "zip"
  let filerChildren :=
    [Xml.elem "TIN" none
      [Xml.elem "TypeTIN" (some (getD filer "tin_type" "FEIN")) [],
       Xml.elem "TINTypeValue" (some tinValue) []]] ++
    (if optTruthyS filer "state_ein" then
      [Xml.elem "StateEIN" (some (getD filer "state_ein" "")) []]
     else []) ++
    [Xml.elem "Name" none
      ([Xml.elem "BusinessNameLine1" (some businessName1) []] ++
       (if optTruthyS filer "business_name_line2" then
         [Xml.elem "BusinessNameLine2"
           (some (getD filer "business_name_line2" "")) []]
        else []))] ++
    [Xml.elem "Address" none
      ([Xml.elem "AddressLine1" (some addressLine1) []] ++
       (if optTruthyS filer "address_line2" then
         [Xml.elem "AddressLine2" (some (getD filer "address_line2" "")) []]
        else []) ++
       [Xml.elem "City" (some city) [],
        Xml.elem "State" (some state) [],
        Xml.elem "ZIP" (some zipValue) []])]
  let shipmentXmls ← shipments.mapM (fun d =>
    if reportType == "CommonCarrier" then addCommonCarrierShipment d
    else addFulfillmentHouseShipment d)
  let root : Xml := .elem reportType none (
    [Xml.elem "TaxPeriodBeginDate" (some tax_period_begin) [],
     Xml.elem "TaxPeriodEndDate" (some tax_period_end) [],
     Xml.elem "Filer" none filerChildren,
     Xml.elem "AckAddress" (some ack_email) []] ++
    (if amended then [Xml.elem "AmendedReturnIndicator" (some "X") []]
     else []) ++
    shipmentXmls)
  pure (to_xml_string root)

theorem except_bind_ok {α β : Type} (a : α) (f : α → Except String β) :
    (Except.ok a : Except String α) >>= f = f a := rfl

theorem except_bind_err {α β : Type} (e : String) (f : α → Except String β) :
    (Except.error e : Except String α) >>= f = .error e := rfl

theorem reqGetV_mem (d : Dict PyVal) (k : String)
    (h : dictMember d k = true) : reqGetV d k = .ok (getVD d k) := by
  unfold dictMember at h
  unfold reqGetV getVD
  cases hg : dictGet d k with
  | some v => simp
  | none =>
    rw [hg] at h
    simp at h

theorem reqGetV_missing (d : Dict PyVal) (k : String)
    (h : dictMember d k = false) : reqGetV d k = .error k := by
  unfold dictMember at h
  unfold reqGetV
  cases hg : dictGet d k with
  | some v =>
    rw [hg] at h
    simp at h
  | none => rfl

theorem reqGetS_mem (d : Dict String) (k : String)
    (h : dictMember d k = true) :
    reqGetS d k = .ok ((dictGet d k).getD "") := by
  unfold dictMember at h
  unfold reqGetS
  cases hg : dictGet d k with
  | some v => simp
  | none =>
    rw [hg] at h
    simp at h

theorem exceptOk_exists {α : Type} (x : Except String α)
    (h : exceptOk x = true) : ∃ a, x = .ok a := by
  cases x with
  | ok a => exact ⟨a, rfl⟩
  | error e => simp [exceptOk] at h

/-- The required shipment fields of a Common Carrier record, in the
order `_add_common_carrier_shipment` accesses them. -/
def ccRequiredKeys : List String :=
  ["consignor_name", "consignor_address_line1", "consignor_city",
   "consignor_state", "consignor_zip", "consignee_name",
   "consignee_address_line1", "consignee_city", "consignee_state",
   "consignee_zip", "shipment_date", "weight_of_beverages"]

/-- The required filer fields, in the order `generate_xml` accesses
them. -/
def filerRequiredKeys : List String :=
  ["tin_value", "business_name_line1", "address_line1", "city", "state",
   "zip"]

def filerComplete (filer : Dict String) : Bool :=
  filerRequiredKeys.all (fun k => dictMember filer k)

def ccShipComplete (d : Dict PyVal) : Bool :=
  ccRequiredKeys.all (fun k => dictMember d k)

theorem addCC_ok (d : Dict PyVal) (h : ccShipComplete d = true) :
    exceptOk (addCommonCarrierShipment d) = true := by
  have hm := List.all_eq_true.mp h
  have e0 := reqGetV_mem d "consignor_name" (hm _ (by decide))
  have e1 := reqGetV_mem d "consignor_address_line1" (hm _ (by decide))
  have e2 := reqGetV_mem d "consignor_city" (hm _ (by decide))
  have e3 := reqGetV_mem d "consignor_state" (hm _ (by decide))
  have e4 := reqGetV_mem d "consignor_zip" (hm _ (by decide))
  have e5 := reqGetV_mem d "consignee_name" (hm _ (by decide))
  have e6 := reqGetV_mem d "consignee_address_line1" (hm _ (by decide))
  have e7 := reqGetV_mem d "consignee_city" (hm _ (by decide))
  have e8 := reqGetV_mem d "consignee_state" (hm _ (by decide))
  have e9 := reqGetV_mem d "consignee_zip" (hm _ (by decide))
  have e10 := reqGetV_mem d "shipment_date" (hm _ (by decide))
  have e11 := reqGetV_mem d "weight_of_beverages" (hm _ (by decide))
  simp only [addCommonCarrierShipment, e0, e1, e2, e3, e4, e5, e6, e7, e8, e9, e10, e11, except_bind_ok]
  rfl

theorem addCC_first_missing (d : Dict PyVal) (k : String)
    (hkmem : k ∈ ccRequiredKeys)
    (hmiss : dictMember d k = false)
    (hother : ∀ k' ∈ ccRequiredKeys, k' ≠ k → dictMember d k' = true) :
    addCommonCarrierShipment d = .error k := by
  fin_cases hkmem
  · have em := reqGetV_missing d "consignor_name" hmiss
    simp only [addCommonCarrierShipment, em, except_bind_ok, except_bind_err]
  · have em := reqGetV_missing d "consignor_address_line1" hmiss
    have e0 := reqGetV_mem d "consignor_name" (hother _ (by decide) (by decide))
    simp only [addCommonCarrierShipment, e0, em, except_bind_ok, except_bind_err]
  · have em := reqGetV_missing d "consignor_city" hmiss
    have e0 := reqGetV_mem d "consignor_name" (hother _ (by decide) (by decide))
    have e1 := reqGetV_mem d "consignor_address_line1" (hother _ (by decide) (by decide))
    simp only [addCommonCarrierShipment, e0, e1, em, except_bind_ok, except_bind_err]
  · have em := reqGetV_missing d "consignor_state" hmiss
    have e0 := reqGetV_mem d "consignor_name" (hother _ (by decide) (by decide))
    have e1 := reqGetV_mem d "consignor_address_line1" (hother _ (by decide) (by decide))
    have e2 := reqGetV_mem d "consignor_city" (hother _ (by decide) (by decide))
    simp only [addCommonCarrierShipment, e0, e1, e2, em, except_bind_ok, except_bind_err]
  · have em := reqGetV_missing d "consignor_zip" hmiss
    have e0 := reqGetV_mem d "consignor_name" (hother _ (by decide) (by decide))
    have e1 := reqGetV_mem d "consignor_address_line1" (hother _ (by decide) (by decide))
    have e2 := reqGetV_mem d "consignor_city" (hother _ (by decide) (by decide))
    have e3 := reqGetV_mem d "consignor_state" (hother _ (by decide) (by decide))
    simp only [addCommonCarrierShipment, e0, e1, e2, e3, em, except_bind_ok, except_bind_err]
  · have em := reqGetV_missing d "consignee_name" hmiss
    have e0 := reqGetV_mem d "consignor_name" (hother _ (by decide) (by decide))
    have e1 := reqGetV_mem d "consignor_address_line1" (hother _ (by decide) (by decide))
    have e2 := reqGetV_mem d "consignor_city" (hother _ (by decide) (by decide))
    have e3 := reqGetV_mem d "consignor_state" (hother _ (by decide) (by decide))
    have e4 := reqGetV_mem d "consignor_zip" (hother _ (by decide) (by decide))
    simp only [addCommonCarrierShipment, e0, e1, e2, e3, e4, em, except_bind_ok, except_bind_err]
  · have em := reqGetV_missing d "consignee_address_line1" hmiss
    have e0 := reqGetV_mem d "consignor_name" (hother _ (by decide) (by decide))
    have e1 := reqGetV_mem d "consignor_address_line1" (hother _ (by decide) (by decide))
    have e2 := reqGetV_mem d "consignor_city" (hother _ (by decide) (by decide))
    have e3 := reqGetV_mem d "consignor_state" (hother _ (by decide) (by decide))
    have e4 := reqGetV_mem d "consignor_zip" (hother _ (by decide) (by decide))
    have e5 := reqGetV_mem d "consignee_name" (hother _ (by decide) (by decide))
    simp only [addCommonCarrierShipment, e0, e1, e2, e3, e4, e5, em, except_bind_ok, except_bind_err]
  · have em := reqGetV_missing d "consignee_city" hmiss
    have e0 := reqGetV_mem d "consignor_name" (hother _ (by decide) (by decide))
    have e1 := reqGetV_mem d "consignor_address_line1" (hother _ (by decide) (by decide))
    have e2 := reqGetV_mem d "consignor_city" (hother _ (by decide) (by decide))
    have e3 := reqGetV_mem d "consignor_state" (hother _ (by decide) (by decide))
    have e4 := reqGetV_mem d "consignor_zip" (hother _ (by decide) (by decide))
    have e5 := reqGetV_mem d "consignee_name" (hother _ (by decide) (by decide))
    have e6 := reqGetV_mem d "consignee_address_line1" (hother _ (by decide) (by decide))
    simp only [addCommonCarrierShipment, e0, e1, e2, e3, e4, e5, e6, em, except_bind_ok, except_bind_err]
  · have em := reqGetV_missing d "consignee_state" hmiss
    have e0 := reqGetV_mem d "consignor_name" (hother _ (by decide) (by decide))
    have e1 := reqGetV_mem d "consignor_address_line1" (hother _ (by decide) (by decide))
    have e2 := reqGetV_mem d "consignor_city" (hother _ (by decide) (by decide))
    have e3 := reqGetV_mem d "consignor_state" (hother _ (by decide) (by decide))
    have e4 := reqGetV_mem d "consignor_zip" (hother _ (by decide) (by decide))
    have e5 := reqGetV_mem d "consignee_name" (hother _ (by decide) (by decide))
    have e6 := reqGetV_mem d "consignee_address_line1" (hother _ (by decide) (by decide))
    have e7 := reqGetV_mem d "consignee_city" (hother _ (by decide) (by decide))
    simp only [addCommonCarrierShipment, e0, e1, e2, e3, e4, e5, e6, e7, em, except_bind_ok, except_bind_err]
  · have em := reqGetV_missing d "consignee_zip" hmiss
    have e0 := reqGetV_mem d "consignor_name" (hother _ (by decide) (by decide))
    have e1 := reqGetV_mem d "consignor_address_line1" (hother _ (by decide) (by decide))
    have e2 := reqGetV_mem d "consignor_city" (hother _ (by decide) (by decide))
    have e3 := reqGetV_mem d "consignor_state" (hother _ (by decide) (by decide))
    have e4 := reqGetV_mem d "consignor_zip" (hother _ (by decide) (by decide))
    have e5 := reqGetV_mem d "consignee_name" (hother _ (by decide) (by decide))
    have e6 := reqGetV_mem d "consignee_address_line1" (hother _ (by decide) (by decide))
    have e7 := reqGetV_mem d "consignee_city" (hother _ (by decide) (by decide))
    have e8 := reqGetV_mem d "consignee_state" (hother _ (by decide) (by decide))
    simp only [addCommonCarrierShipment, e0, e1, e2, e3, e4, e5, e6, e7, e8, em, except_bind_ok, except_bind_err]
  · have em := reqGetV_missing d "shipment_date" hmiss
    have e0 := reqGetV_mem d "consignor_name" (hother _ (by decide) (by decide))
    have e1 := reqGetV_mem d "consignor_address_line1" (hother _ (by decide) (by decide))
    have e2 := reqGetV_mem d "consignor_city" (hother _ (by decide) (by decide))
    have e3 := reqGetV_mem d "consignor_state" (hother _ (by decide) (by decide))
    have e4 := reqGetV_mem d "consignor_zip" (hother _ (by decide) (by decide))
    have e5 := reqGetV_mem d "consignee_name" (hother _ (by decide) (by decide))
    have e6 := reqGetV_mem d "consignee_address_line1" (hother _ (by decide) (by decide))
    have e7 := reqGetV_mem d "consignee_city" (hother _ (by decide) (by decide))
    have e8 := reqGetV_mem d "consignee_state" (hother _ (by decide) (by decide))
    have e9 := reqGetV_mem d "consignee_zip" (hother _ (by decide) (by decide))
    simp only [addCommonCarrierShipment, e0, e1, e2, e3, e4, e5, e6, e7, e8, e9, em, except_bind_ok, except_bind_err]
  · have em := reqGetV_missing d "weight_of_beverages" hmiss
    have e0 := reqGetV_mem d "consignor_name" (hother _ (by decide) (by decide))
    have e1 := reqGetV_mem d "consignor_address_line1" (hother _ (by decide) (by decide))
    have e2 := reqGetV_mem d "consignor_city" (hother _ (by decide) (by decide))
    have e3 := reqGetV_mem d "consignor_state" (hother _ (by decide) (by decide))
    have e4 := reqGetV_mem d "consignor_zip" (hother _ (by decide) (by decide))
    have e5 := reqGetV_mem d "consignee_name" (hother _ (by decide) (by decide))
    have e6 := reqGetV_mem d "consignee_address_line1" (hother _ (by decide) (by decide))
    have e7 := reqGetV_mem d "consignee_city" (hother _ (by decide) (by decide))
    have e8 := reqGetV_mem d "consignee_state" (hother _ (by decide) (by decide))
    have e9 := reqGetV_mem d "consignee_zip" (hother _ (by decide) (by decide))
    have e10 := reqGetV_mem d "shipment_date" (hother _ (by decide) (by decide))
    simp only [addCommonCarrierShipment, e0, e1, e2, e3, e4, e5, e6, e7, e8, e9, e10, em, except_bind_ok, except_bind_err]

theorem mapM_error_at (f : Dict PyVal → Except String Xml)
    (pre suf : List (Dict PyVal)) (s : Dict PyVal) (k : String)
    (hpre : ∀ t ∈ pre, exceptOk (f t) = true) (hs : f s = .error k) :
    (pre ++ s :: suf).mapM f = .error k := by
  induction pre with
  | nil =>
    rw [List.nil_append, List.mapM_cons, hs]
    rfl
  | cons t pre ih =>
    rw [List.cons_append, List.mapM_cons]
    obtain ⟨x, hx⟩ := exceptOk_exists _ (hpre t (List.mem_cons_self _ _))
    rw [hx, except_bind_ok,
      ih (fun u hu => hpre u (List.mem_cons_of_mem _ hu))]
    rfl

/-- C5 (amended): assembling a Common Carrier document whose shipment at
some position lacks a required field fails with a KeyError-kind error
naming the (first) missing field; the record index is not part of the
error.  Here the failing record `s` sits after any number of complete
records `pre`. -/
theorem generate_xml_missing_field_c5 (filer : Dict String)
    (pre suf : List (Dict PyVal)) (s : Dict PyVal)
    (tb te ae : String) (am : Bool) (k : String)
    (hfiler : filerComplete filer = true)
    (hpre : ∀ t ∈ pre, ccShipComplete t = true)
    (hkmem : k ∈ ccRequiredKeys)
    (hmiss : dictMember s k = false)
    (hother : ∀ k' ∈ ccRequiredKeys, k' ≠ k → dictMember s k' = true) :
    generate_xml "CommonCarrier" filer (pre ++ s :: suf) tb te ae am =
      .error k := by
  have hf := List.all_eq_true.mp hfiler
  have f0 := reqGetS_mem filer "tin_value" (hf _ (by decide))
  have f1 := reqGetS_mem filer "business_name_line1" (hf _ (by decide))
  have f2 := reqGetS_mem filer "address_line1" (hf _ (by decide))
  have f3 := reqGetS_mem filer "city" (hf _ (by decide))
  have f4 := reqGetS_mem filer "state" (hf _ (by decide))
  have f5 := reqGetS_mem filer "zip" (hf _ (by decide))
  have hmap : (pre ++ s :: suf).mapM addCommonCarrierShipment = .error k :=
    mapM_error_at _ pre suf s k (fun t ht => addCC_ok t (hpre t ht))
      (addCC_first_missing s k hkmem hmiss hother)
  simp only [generate_xml, f0, f1, f2, f3, f4, f5, except_bind_ok,
    beq_self_eq_true, if_true, hmap, except_bind_err]

/-- A complete filer record for the concrete C5 inputs. -/
def c5filer : Dict String :=
  [("tin_value", "123456789"), ("business_name_line1", "Acme"),
   ("address_line1", "1 Main St"), ("city", "Madison"), ("state", "WI"),
   ("zip", "53703")]

/-- A complete Common Carrier shipment record. -/
def c5shipOk : Dict PyVal :=
  [("consignor_name", PyVal.str "Acme"),
   ("consignor_address_line1", PyVal.str "1 Main St"),
   ("consignor_city", PyVal.str "Madison"),
   ("consignor_state", PyVal.str "WI"),
   ("consignor_zip", PyVal.str "53703"),
   ("consignee_name", PyVal.str "Bob"),
   ("consignee_address_line1", PyVal.str "2 Oak St"),
   ("consignee_city", PyVal.str "Racine"),
   ("consignee_state", PyVal.str "WI"),
   ("consignee_zip", PyVal.str "53402"),
   ("shipment_date", PyVal.str "2025-01-02"),
   ("weight_of_beverages", PyVal.str "10.5")]

/-- The same record without `consignee_name`. -/
def c5shipBad : Dict PyVal :=
  [("consignor_name", PyVal.str "Acme"),
   ("consignor_address_line1", PyVal.str "1 Main St"),
   ("consignor_city", PyVal.str "Madison"),
   ("consignor_state", PyVal.str "WI"),
   ("consignor_zip", PyVal.str "53703"),
   ("consignee_address_line1", PyVal.str "2 Oak St"),
   ("consignee_city", PyVal.str "Racine"),
   ("consignee_state", PyVal.str "WI"),
   ("consignee_zip", PyVal.str "53402"),
   ("shipment_date", PyVal.str "2025-01-02"),
   ("weight_of_beverages", PyVal.str "10.5")]

/-- C5 counterexample: whether the incomplete record is at index 1 or at
index 0, `generate_xml` fails with the byte-identical error naming only
the field — the error cannot and does not name the record index, so
"names the field and the record index" is refuted. -/
theorem generate_xml_c5_counterexample :
    generate_xml "CommonCarrier" c5filer [c5shipOk, c5shipBad]
      "2025-01-01" "2025-03-31" "a@b.com" false = .error "consignee_name" ∧
    generate_xml "CommonCarrier" c5filer [c5shipBad, c5shipOk]
      "2025-01-01" "2025-03-31" "a@b.com" false = .error "consignee_name" :=
  ⟨by decide, by decide⟩

theorem generate_xml_c5_witness :
    generate_xml "CommonCarrier" c5filer ([] ++ c5shipBad :: [])
      "2025-01-01" "2025-03-31" "a@b.com" false = .error "consignee_name" :=
  generate_xml_missing_field_c5 c5filer [] [] c5shipBad
    "2025-01-01" "2025-03-31" "a@b.com" false "consignee_name"
    (by decide) (by simp) (by decide) (by decide) (by decide)

/-- C6: the Document Assembler is deterministic — two calls with equal
report type, filer data, shipments, tax-period dates, ack email and
amended flag produce identical XML text.  In this embedding
`generate_xml` is a pure function of exactly these inputs: the source
reads no clock, counter or randomness, so byte-identical inputs give
byte-identical output. -/
theorem generate_xml_deterministic_c6 (rt rt' : String)
    (filer filer' : Dict String) (sh sh' : List (Dict PyVal))
    (tb tb' te te' ae ae' : String) (am am' : Bool)
    (h1 : rt = rt') (h2 : filer = filer') (h3 : sh = sh')
    (h4 : tb = tb') (h5 : te = te') (h6 : ae = ae') (h7 : am = am') :
    generate_xml rt filer sh tb te ae am =
      generate_xml rt' filer' sh' tb' te' ae' am' := by
  subst h1 h2 h3 h4 h5 h6 h7
  rfl

theorem generate_xml_c6_witness :
    generate_xml "CommonCarrier" c5filer [c5shipOk] "2025-01-01"
        "2025-03-31" "a@b.com" false =
      generate_xml "CommonCarrier" c5filer [c5shipOk] "2025-01-01"
        "2025-03-31" "a@b.com" false :=
  generate_xml_deterministic_c6 _ _ _ _ _ _ _ _ _ _ _ _ _ _
    rfl rfl rfl rfl rfl rfl rfl

def listIsPrefix : List Char → List Char → Bool
  | [], _ => true
  | _ :: _, [] => false
  | a :: as, b :: bs => a == b && listIsPrefix as bs

def listContains (sub : List Char) : List Char → Bool
  | [] => sub.isEmpty
  | c :: t => listIsPrefix sub (c :: t) || listContains sub t

/-- Python `sub in hay` on strings. -/
def strContains (hay sub : String) : Bool :=
  listContains sub.toList hay.toList

def pyLower (s : String) : String :=
  String.mk (s.toList.map pyToLower)

def removeDotsStr (s : String) : String :=
  String.mk (s.toList.filter (fun c => !(c == '.')))

/-- The capture of `re.search(r"value '([^']*)'", msg)`: text between the
first `value '` marker and the next quote (requires the closing
quote). -/
def scanValue : List Char → Option String
  | [] => none
  | c :: t =>
    let marker := ("value " ++ String.singleton squoteChar).toList
    if listIsPrefix marker (c :: t) then
      let rest := (c :: t).drop marker.length
      let captured := rest.takeWhile (fun ch => !(ch == squoteChar))
      match rest.dropWhile (fun ch => !(ch == squoteChar)) with
      | _ :: _ => some (String.mk captured)
      | [] => scanValue t
    else scanValue t

/-- The capture of `re.search(r"line (\d+)", msg)`. -/
def scanLineNum : List Char → Option Nat
  | [] => none
  | c :: t =>
    if listIsPrefix "line ".toList (c :: t) then
      let ds := ((c :: t).drop 5).takeWhile isDigitChar
      if ds.isEmpty then scanLineNum t else some (digitsVal ds)
    else scanLineNum t

inductive AddrSection where
  | filer | consignor | manufacturer | consignee

/-- The per-line marker test of the backward scan, in source order. -/
def lineSection (line : String) : Option AddrSection :=
  if strContains line "<Filer>" then some .filer
  else if strContains line "<ConsignorAddress>" then some .consignor
  else if strContains line "<ManufacturerAddress>" then some .manufacturer
  else if strContains line "<ConsigneeAddress>" then some .consignee
  else none

def scanIdxs : List Nat → List String → Option AddrSection
  | [], _ => none
  | i :: rest, lines =>
    if i < lines.length then
      match lineSection (lines.getD i "") with
      | some s => some s
      | none => scanIdxs rest lines
    else scanIdxs rest lines

/-- `for i in range(line_number - 1, max(0, line_number - 20), -1)`:
scan at most ~20 lines backwards from the reported line for the nearest
enclosing section marker. -/
def scanBackSections (lines : List String) (ln : Nat) : Option AddrSection :=
  let a := ln - 1
  let b := max 0 (ln - 20)
  scanIdxs (List.range' (b + 1) (a - b)).reverse lines

/-- Whole-document fallback when the backward scan finds nothing:
first matching section tag wins, Consignor then Manufacturer then
Consignee, else Filer. -/
def fallbackSection (xml_string : String) : AddrSection :=
  if strContains xml_string "<ConsignorAddress>" then .consignor
  else if strContains xml_string "<ManufacturerAddress>" then .manufacturer
  else if strContains xml_string "<ConsigneeAddress>" then .consignee
  else .filer

def sectionLoc : AddrSection → String × String × String
  | .filer => ("YOUR BUSINESS ADDRESS", "2", "Filer Information")
  | .consignor =>
    ("SENDER ADDRESS (Consignor)", "4", "Default Consignor Information")
  | .manufacturer =>
    ("MANUFACTURER ADDRESS (Winery)", "4",
     "Default Manufacturer Information")
  | .consignee =>
    ("RECIPIENT ADDRESS (Consignee)", "5",
     "shipment data (from CSV or table)")

/-- The `AddressLine1` remediation branch: extract the offending value
and line, localize the section by the backward scan (fallback: document
presence check), and assemble value-specific guidance.  The long
user-facing prose of the source is abbreviated; the branch structure,
extractions and interpolated data are kept. -/
def addrBranchText (error_msg xml_string : String) : String :=
  let invalid := scanValue error_msg.toList
  let lineNum := scanLineNum error_msg.toList
  let scanned :=
    match lineNum with
    | some n =>
      scanBackSections
        ((splitOnChar '\n' xml_string.toList).map String.mk) n
    | none => none
  let sec :=
    match scanned with
    | some s => s
    | none => fallbackSection xml_string
  let loc := (sectionLoc sec).1
  let stepNum := (sectionLoc sec).2.1
  let sectionName := (sectionLoc sec).2.2
  (match invalid with
   | some v =>
     "PROBLEM: Invalid street address in " ++ loc ++ "\n\n" ++
     "INVALID ADDRESS: " ++ v ++ "\n\n" ++
     (if strContains v "." then
       "Issue: Contains period (.)\nQuick Fix: Change " ++ v ++ " to " ++
       removeDotsStr v ++ "\n\n"
      else "")
   | none =>
     "PROBLEM: Missing or empty street address in " ++ loc ++ "\n\n") ++
  "WHERE TO FIX: Go to Step " ++ stepNum ++ " - " ++ sectionName ++ "\n\n" ++
  "HOW TO FIX:\n\n" ++
  (if strContains loc "Consignor" || strContains loc "Manufacturer" then
    "  Fill in Address Line 1 under " ++ sectionName ++
    " and save defaults; it applies to ALL shipments.\n"
   else if strContains loc "Consignee" || strContains loc "RECIPIENT" then
    (match invalid with
     | some v =>
       if strContains v "." then
         "  The recipient address has a PERIOD which is not allowed; " ++
         "re-import the CSV (periods are auto-removed) or change " ++ v ++
         " to " ++ removeDotsStr v ++ " in the Step 5 table.\n"
       else if v == "" then
         "  A recipient address is empty; fix the blank Address cell " ++
         "in your CSV or the Step 5 table.\n"
       else
         "  Re-import the CSV (auto-cleans addresses) or fix " ++ v ++
         " in the Step 5 table, removing special characters.\n"
     | none =>
       "  Re-import the CSV or fill the missing address in Step 5.\n")
   else
    "  Fill in Address Line 1 in Step 2: Filer Information and save.\n")

/-- `XMLGenerator._enhance_validation_error`'s dispatch on the raw
message, with each remediation template condensed to its structural
content (classification, extracted values, localization); the branch
conditions and their order are the source's. -/
def enhBody (error_msg xml_string : String) : String :=
  if strContains error_msg "AddressLine1" then
    addrBranchText error_msg xml_string
  else if strContains error_msg "TIN" || strContains error_msg "TINTypeValue" then
    "PROBLEM: Tax ID Number (TIN) is missing or incorrect\n" ++
    "WHERE TO FIX: Step 2 - Filer Information\n" ++
    "Enter your 9-digit Tax ID Number: exactly 9 digits, no dashes or spaces.\n"
  else if strContains error_msg "PermitNumber" ||
      strContains error_msg "WinePermitNumber" ||
      strContains error_msg "CommonCarrierPermitNumber" then
    "PROBLEM: Permit Number is missing or incorrect\n" ++
    "WHERE TO FIX: Step 4 - Default Values\n" ++
    (if strContains error_msg "Wine" then "Find Wine Permit Number\n"
     else if strContains error_msg "CommonCarrier" then
       "Find Common Carrier Permit Number\n"
     else "Find the permit number field\n") ++
    "Enter the 15-digit permit number, zero-padded, numbers only.\n"
  else if strContains error_msg "Date" || strContains error_msg "YYYY-MM-DD" then
    let invalidDate := (scanValue error_msg.toList).getD ""
    let dateField :=
      if strContains error_msg "TaxPeriodBeginDate" then
        "TAX PERIOD BEGIN DATE (Step 3)"
      else if strContains error_msg "TaxPeriodEndDate" then
        "TAX PERIOD END DATE (Step 3)"
      else if strContains error_msg "ShipmentDate" ||
          strContains xml_string "<Shipment>" then
        "SHIPMENT DATE (in your shipment data)"
      else "Unknown date field"
    "PROBLEM: Date could not be understood or is invalid\n" ++
    (if !(invalidDate == "") then "INVALID DATE: " ++ invalidDate ++ "\n"
     else "") ++
    dateField ++ "\n" ++
    "Use a standard format like 10/29/2025 or 2025-10-29, or the date picker.\n"
  else if strContains error_msg "Email" || strContains error_msg "AckAddress" then
    "PROBLEM: Email address is missing or invalid\n" ++
    "WHERE TO FIX: Step 3 - Tax Period and Contact\n" ++
    "Enter a valid email address (username, @, domain).\n"
  else if strContains error_msg "State" then
    let invalidState := (scanValue error_msg.toList).getD ""
    "PROBLEM: State code is invalid or missing\n" ++
    (if !(invalidState == "") then
      "INVALID STATE CODE: " ++ invalidState ++ "\n"
     else "") ++
    "State codes MUST be 2 uppercase letters.\n" ++
    (if invalidState.length > 2 then
      (match dictGet
          [("WISCONSIN", "WI"), ("ILLINOIS", "IL"), ("MINNESOTA", "MN"),
           ("IOWA", "IA"), ("MICHIGAN", "MI"), ("CALIFORNIA", "CA")]
          (pyUpper invalidState) with
       | some sug => "Try: " ++ sug ++ "\n"
       | none => "")
     else "")
  else if strContains error_msg "City" then
    let invalidCity := (scanValue error_msg.toList).getD ""
    "PROBLEM: City name contains invalid characters\n" ++
    (if !(invalidCity == "") then "INVALID CITY: " ++ invalidCity ++ "\n"
     else "") ++
    "City names can only contain letters and spaces.\n"
  else if strContains error_msg "BusinessNameLine1" then
    "PROBLEM: Business name is missing or has invalid characters\n" ++
    "WHERE TO FIX: Step 2 - Filer Information\n"
  else if strContains error_msg "ZIP" || strContains error_msg "Zip" then
    let invalidZip := (scanValue error_msg.toList).getD ""
    "PROBLEM: ZIP code is invalid\n" ++
    (if !(invalidZip == "") then "INVALID ZIP: " ++ invalidZip ++ "\n"
     else "") ++
    "ZIP codes must be exactly 5 or exactly 9 characters.\n"
  else if strContains error_msg "Weight" ||
      strContains error_msg "WeightOfBeverages" then
    "PROBLEM: Weight value is missing or invalid\n" ++
    "WHERE TO FIX: Check your shipment data (Step 5)\n" ++
    "Weight must be a number in pounds.\n"
  else if strContains (pyLower error_msg) "pattern" ||
      strContains (pyLower error_msg) "not accepted" then
    "PROBLEM: A field has invalid characters or is empty when required\n" ++
    "Check required fields, remove special characters and stray spaces.\n"
  else
    "PROBLEM: " ++ error_msg ++ "\n\n" ++
    "GENERAL TIPS:\n\n" ++
    "  Double-check all REQUIRED fields\n" ++
    "  Make sure dates use YYYY-MM-DD format\n" ++
    "  Verify permit numbers are 15 digits\n" ++
    "  Check that your TIN is 9 digits\n"

/-- The fixed header of every enhanced message. -/
def enhHeader : String :=
  "VALIDATION FAILED - Please Fix the Following:\n\n" ++
  "NOTE: Fixing one error at a time - there may be more after this one.\n\n"

/-- The fixed footer of every enhanced message. -/
def enhFooter : String :=
  "\nAFTER FIXING: make the changes, save, and run Generate and " ++
  "Validate again; each run finds the next issue, if any.\n"

/-- The generic remediation template of the final `else` branch. -/
def genericRemediation (error_msg : String) : String :=
  "PROBLEM: " ++ error_msg ++ "\n\n" ++
  "GENERAL TIPS:\n\n" ++
  "  Double-check all REQUIRED fields\n" ++
  "  Make sure dates use YYYY-MM-DD format\n" ++
  "  Verify permit numbers are 15 digits\n" ++
  "  Check that your TIN is 9 digits\n"

/-- `XMLGenerator._enhance_validation_error`. -/
def enhance_validation_error (error_msg xml_string : String) : String :=
  enhHeader ++ enhBody error_msg xml_string ++ enhFooter

/-- What the external schema validator did: accepted, rejected with a
`DocumentInvalid` message, or raised some other exception. -/
inductive ValidatorOutcome where
  | valid
  | invalid (msg : String)
  | failure (msg : String)

/-- `XMLGenerator.validate_xml`: every outcome is turned into a normal
return value — acceptance gives `(True, None)`, a schema rejection gives
`(False, enhanced report)`, any other exception gives
`(False, "Validation error: ...")`; nothing propagates. -/
def validate_xml (outcome : ValidatorOutcome) (xml_string : String) :
    Bool × Option String :=
  match outcome with
  | .valid => (true, none)
  | .invalid msg => (false, some (enhance_validation_error msg xml_string))
  | .failure msg => (false, some ("Validation error: " ++ msg))

/-- The disjunction of every recognizing branch condition of the
dispatch, in source order; `false` means the raw message matches no
known field-name pattern. -/
def recognizedError (msg : String) : Bool :=
  strContains msg "AddressLine1" ||
  (strContains msg "TIN" || strContains msg "TINTypeValue") ||
  (strContains msg "PermitNumber" || strContains msg "WinePermitNumber" ||
    strContains msg "CommonCarrierPermitNumber") ||
  (strContains msg "Date" || strContains msg "YYYY-MM-DD") ||
  (strContains msg "Email" || strContains msg "AckAddress") ||
  strContains msg "State" ||
  strContains msg "City" ||
  strContains msg "BusinessNameLine1" ||
  (strContains msg "ZIP" || strContains msg "Zip") ||
  (strContains msg "Weight" || strContains msg "WeightOfBeverages") ||
  (strContains (pyLower msg) "pattern" ||
    strContains (pyLower msg) "not accepted")

/-- C9: the Validation Translator never raises on a schema-validation
failure — an `invalid` outcome yields a normal `(False, report)` return
with a remediation report present — and a raw message matching no known
field-name pattern still yields the generic remediation template. -/
theorem validate_xml_c9 (msg xml : String) :
    (validate_xml (.invalid msg) xml).1 = false ∧
    ((validate_xml (.invalid msg) xml).2).isSome = true ∧
    (recognizedError msg = false →
      (validate_xml (.invalid msg) xml).2 =
        some (enhHeader ++ genericRemediation msg ++ enhFooter)) := by
  refine ⟨rfl, rfl, ?_⟩
  intro h
  unfold recognizedError at h
  rw [Bool.or_eq_false_iff] at h
  obtain ⟨h, h11⟩ := h
  rw [Bool.or_eq_false_iff] at h
  obtain ⟨h, h10⟩ := h
  rw [Bool.or_eq_false_iff] at h
  obtain ⟨h, h9⟩ := h
  rw [Bool.or_eq_false_iff] at h
  obtain ⟨h, h8⟩ := h
  rw [Bool.or_eq_false_iff] at h
  obtain ⟨h, h7⟩ := h
  rw [Bool.or_eq_false_iff] at h
  obtain ⟨h, h6⟩ := h
  rw [Bool.or_eq_false_iff] at h
  obtain ⟨h, h5⟩ := h
  rw [Bool.or_eq_false_iff] at h
  obtain ⟨h, h4⟩ := h
  rw [Bool.or_eq_false_iff] at h
  obtain ⟨h, h3⟩ := h
  rw [Bool.or_eq_false_iff] at h
  obtain ⟨h1, h2⟩ := h
  show some (enhance_validation_error msg xml) = _
  unfold enhance_validation_error enhBody
  rw [if_neg (by simp [h1]), if_neg (by simp [h2]), if_neg (by simp [h3]),
    if_neg (by simp [h4]), if_neg (by simp [h5]), if_neg (by simp [h6]),
    if_neg (by simp [h7]), if_neg (by simp [h8]), if_neg (by simp [h9]),
    if_neg (by simp [h10]), if_neg (by simp [h11])]
  rfl

theorem validate_xml_c9_witness :
    recognizedError "mystery failure 42" = false ∧
    (validate_xml (.invalid "mystery failure 42") "<a/>").2 =
      some (enhHeader ++ genericRemediation "mystery failure 42" ++
        enhFooter) :=
  ⟨by decide,
   (validate_xml_c9 "mystery failure 42" "<a/>").2.2 (by decide)⟩
